import Mathlib

/-!
Verification of the aceInterview python backend's agent/orchestrator core.

The Python source (src/python_backend) is shallowly embedded below:
* pure functions become Lean functions over `Int`/`ℚ`/`String`/`List`;
* Python's `round` (banker's rounding) is `pyRound` on `ℚ`;
* dictionaries built by the agents are structures whose optional keys are
  `Option` fields, with `.get(key, default)` becoming `Option.getD`;
* pydantic model construction, which can raise a `ValidationError`, is a
  checked constructor returning `Except String _`; any other Python
  exception is likewise an `Except.error`;
* the pydantic-ai model boundary is a `ModelOutcome` parameter: it either
  succeeds with a schema-valid value or fails (transport error, timeout or
  schema-validation failure — all are caught identically by the agents);
* `random.choice(l)` is modelled by an explicit draw parameter `k : Nat`
  selecting `l[k % l.length]`; a caller-supplied draw stands for the state
  of the global random number generator at the call;
* the orchestrator's mutable `session_memory` dict is an association list
  threaded through the functions that mutate it.
-/

/-! ### Python primitives -/

/-- Python's `round` on a rational: round half to even (banker's rounding). -/
def pyRound (q : ℚ) : ℤ :=
  if q - ⌊q⌋ < 1/2 then ⌊q⌋
  else if 1/2 < q - ⌊q⌋ then ⌊q⌋ + 1
  else if ⌊q⌋ % 2 = 0 then ⌊q⌋ else ⌊q⌋ + 1

/-- `needle.isPrefixOf`-based substring test: Python's `needle in hay`. -/
def listContainsSub (hay needle : List Char) : Bool :=
  needle.isPrefixOf hay ||
    match hay with
    | [] => false
    | _ :: rest => listContainsSub rest needle

/-- Python's `needle in hay` on strings. -/
def strContains (hay needle : String) : Bool :=
  listContainsSub hay.data needle.data

/-- Python's `str.lower` (ASCII case folding, which covers the repository's
string constants). -/
def pyLower (s : String) : String :=
  ⟨s.data.map Char.toLower⟩

/-- Python's `str.replace " " "_"` for the single-character pattern used by
the session-key code. -/
def pyReplaceSpace (s : String) : String :=
  ⟨s.data.map fun c => if c = ' ' then '_' else c⟩

/-- Python's `seq[i]`, with negative indices counting from the end and an
`IndexError` when out of range. -/
def pyIndex {α : Type} (l : List α) (i : Int) : Except String α :=
  if h : 0 ≤ i ∧ i.toNat < l.length then .ok (l.get ⟨i.toNat, h.2⟩)
  else
    let j := i + l.length
    if h2 : 0 ≤ j ∧ j.toNat < l.length then .ok (l.get ⟨j.toNat, h2.2⟩)
    else .error "IndexError"

/-- Python's `dict.get(key, default)` over a literal dict, modelled as an
association list in insertion order. -/
def lookupD {α : Type} : List (String × α) → String → α → α
  | [], _, d => d
  | (k, v) :: rest, key, d => if key = k then v else lookupD rest key d

/-- Python's `random.choice(l)` given an explicit draw `k` for the RNG
state: the chosen index is `k % l.length`. -/
def pyChoice (l : List String) (k : Nat) : String :=
  l.getD (k % l.length) ""

/-- Pydantic model construction: return the value when the validator
accepts it, raise a `ValidationError` otherwise. -/
def validate {T : Type} (valid : T → Bool) (v : T) : Except String T :=
  if valid v then .ok v else .error "ValidationError"

/-! ### Data model (src/python_backend/models/interview_models.py)

Numeric pydantic `int` fields are `Int`; `Literal[...]` enum fields are
`String` together with a validator; `Optional[...]` fields are `Option`.
The structures carry the raw field values; the pydantic validation that
runs at construction time is the separate `*.valid` predicate, applied by
the checked constructors via `validate`. -/

/-- `InterviewConfig`. -/
structure InterviewConfig where
  topic : String
  style : String
  experience_level : String
  company_name : Option String
  duration : Int
deriving DecidableEq, Repr

def InterviewConfig.valid (c : InterviewConfig) : Bool :=
  ["technical", "hr", "behavioral", "salary-negotiation", "case-study"].contains c.style
    && ["fresher", "junior", "mid-level", "senior", "lead-manager"].contains c.experience_level
    && 15 ≤ c.duration && c.duration ≤ 120

/-- `InterviewResponse`. -/
structure InterviewResponse where
  question_id : String
  question : String
  response : String
  timestamp : Int
  duration : Option Int
deriving DecidableEq, Repr

/-- `ResponseAnalysis`: six bounded integer scores.  The field named
`structure` in the source is `structure_` here (`structure` is a Lean
keyword). -/
structure ResponseAnalysis where
  clarity : Int
  structure_ : Int
  technical : Int
  communication : Int
  confidence : Int
  relevance : Int
deriving DecidableEq, Repr

/-- Pydantic bounds of `ResponseAnalysis`: every score in [0, 100]. -/
def ResponseAnalysis.valid (r : ResponseAnalysis) : Bool :=
  0 ≤ r.clarity && r.clarity ≤ 100
    && (0 ≤ r.structure_ && r.structure_ ≤ 100)
    && (0 ≤ r.technical && r.technical ≤ 100)
    && (0 ≤ r.communication && r.communication ≤ 100)
    && (0 ≤ r.confidence && r.confidence ≤ 100)
    && (0 ≤ r.relevance && r.relevance ≤ 100)

/-- `QuestionMetadata`. -/
structure QuestionMetadata where
  category : String
  difficulty : String
  focus_area : String
  concepts : List String
  question_type : String
  estimated_time : Option String
deriving DecidableEq, Repr

def QuestionMetadata.valid (m : QuestionMetadata) : Bool :=
  ["easy", "medium", "hard"].contains m.difficulty
    && ["theoretical", "practical", "scenario", "problem-solving"].contains m.question_type

/-- `TopicAnalysis`. -/
structure TopicAnalysis where
  main_concepts : List String
  skills : List String
  technologies : List String
  focus_areas : List String
  complexity : String
  question_categories : List String
  relevance_keywords : List String
deriving DecidableEq, Repr

def TopicAnalysis.valid (t : TopicAnalysis) : Bool :=
  ["low", "medium", "high"].contains t.complexity

/-- A value stored under a key of the `metadata` dicts of the analytics
results (the source stores booleans, ints and strings there). -/
inductive MetaVal where
  | bool (b : Bool)
  | int (n : Int)
  | str (s : String)
deriving DecidableEq, Repr

/-- One entry of `question_reviews` (a plain dict in the source; scores can
be floats on the orchestrator fallback path, hence `ℚ`). -/
structure QuestionReview where
  question_id : String
  question : String
  response : String
  score : ℚ
  feedback : String
deriving DecidableEq, Repr

/-- `PerformanceAnalytics`. -/
structure PerformanceAnalytics where
  overall_score : Int
  performance_level : String
  strengths : List String
  improvements : List String
  response_analysis : ResponseAnalysis
  trends : List (String × String)
  recommendations : List String
  executive_summary : String
  next_steps : List String
  question_reviews : List QuestionReview
  metadata : List (String × MetaVal)
deriving DecidableEq, Repr

/-- Pydantic validation of `PerformanceAnalytics`: score bound, the
`performance_level` literal, and the nested `ResponseAnalysis`. -/
def PerformanceAnalytics.valid (p : PerformanceAnalytics) : Bool :=
  0 ≤ p.overall_score && p.overall_score ≤ 100
    && ["excellent", "good", "fair", "needs_improvement"].contains p.performance_level
    && p.response_analysis.valid

/-- `QuestionResult` (question_generation_agent.py). -/
structure QuestionResult where
  question : String
  metadata : QuestionMetadata
  reasoning : String
deriving DecidableEq, Repr

def QuestionResult.valid (q : QuestionResult) : Bool :=
  q.metadata.valid

/-- `ResponseAnalysisResult` (response_analysis_agent.py).  Note that its
`score` field is an unconstrained pydantic `int`. -/
structure ResponseAnalysisResult where
  response_analysis : ResponseAnalysis
  strengths : List String
  improvements : List String
  feedback : String
  score : Int
  key_insights : List String
  reasoning : String
deriving DecidableEq, Repr

def ResponseAnalysisResult.valid (r : ResponseAnalysisResult) : Bool :=
  r.response_analysis.valid

/-! ### Input dictionaries handed to the agents

`input_data` of each agent is a JSON-shaped dict; keys read with
`.get(key, default)` are `Option` fields. `config.model_dump()` becomes
`ConfigDump`. -/

/-- The dumped `InterviewConfig` dict as read back by the fallbacks. -/
structure ConfigDump where
  topic : Option String
  style : Option String
  experience_level : Option String
  company_name : Option (Option String)
  duration : Option Int
deriving DecidableEq, Repr

def ConfigDump.empty : ConfigDump := ⟨none, none, none, none, none⟩

/-- `config.model_dump()`. -/
def InterviewConfig.dump (c : InterviewConfig) : ConfigDump :=
  ⟨some c.topic, some c.style, some c.experience_level, some c.company_name, some c.duration⟩

/-- Agent `context` dicts: only their presence matters to the embedded
code (no fallback reads them), so a string-to-string dict suffices. -/
def Ctx : Type := List (String × String)

/-- Behaviour of the pydantic-ai model boundary for one call: either a
schema-validated result of the agent's result type, or any failure
(transport error, timeout, schema-validation error — `BaseAgent.execute`
catches them all identically). -/
inductive ModelOutcome (T : Type) where
  | ok (v : T)
  | fail
deriving DecidableEq

/-- `BaseAgent.execute`: run the model; on success return the parsed
result, on ANY failure return `generate_fallback_result(input, context)`.
The fallback itself constructs a pydantic model and can therefore raise,
which the surrounding `except` block does not catch — hence the `Except`
codomain. -/
def BaseAgent.execute {I T : Type} (generate_fallback_result : I → Ctx → Except String T)
    (m : ModelOutcome T) (input_data : I) (ctx : Ctx) : Except String T :=
  match m with
  | .ok v => .ok v
  | .fail => generate_fallback_result input_data ctx

/-! ### Topic-Analysis agent (agents/topic_analysis_agent.py) -/

/-- `input_data` built by `TopicAnalysisAgent.analyze_topic`. -/
structure TopicInput where
  topic : Option String
  style : Option String
  experience_level : Option String
  company_name : Option (Option String)
deriving DecidableEq, Repr

/-- The curated per-topic table rows of the topic fallback. -/
structure TopicTableRow where
  main_concepts : List String
  skills : List String
  technologies : List String
  focus_areas : List String
  relevance_keywords : List String
deriving DecidableEq, Repr

/-- `fallback_mappings` of `TopicAnalysisAgent.generate_fallback_result`,
in dict insertion order (the `for key in fallback_mappings` loop takes the
first key contained in the lowercased topic). -/
def topicFallbackMappings : List (String × TopicTableRow) :=
  [("frontend",
    { main_concepts := ["User Interface", "User Experience", "Web Development", "Client-side Programming"]
      skills := ["HTML", "CSS", "JavaScript", "React", "Vue", "Angular"]
      technologies := ["React", "Vue.js", "Angular", "TypeScript", "Webpack", "Sass"]
      focus_areas := ["Component Design", "State Management", "Performance Optimization", "Responsive Design"]
      relevance_keywords := ["component", "state", "props", "DOM", "CSS", "responsive", "performance"] }),
   ("backend",
    { main_concepts := ["Server-side Development", "API Design", "Database Management", "System Architecture"]
      skills := ["Node.js", "Python", "Java", "SQL", "API Development", "Database Design"]
      technologies := ["Express.js", "Django", "Spring Boot", "PostgreSQL", "MongoDB", "Redis"]
      focus_areas := ["API Design", "Database Optimization", "Security", "Scalability"]
      relevance_keywords := ["API", "database", "server", "authentication", "security", "scalability"] }),
   ("javascript",
    { main_concepts := ["Programming Fundamentals", "Asynchronous Programming", "Object-Oriented Programming"]
      skills := ["ES6+", "Async/Await", "Promises", "Closures", "Prototypes"]
      technologies := ["Node.js", "React", "Express", "TypeScript"]
      focus_areas := ["Language Features", "Best Practices", "Performance", "Modern JavaScript"]
      relevance_keywords := ["function", "async", "promise", "closure", "prototype", "ES6", "arrow function"] })]

/-- The generic row used when no curated key matches. -/
def topicGenericRow : TopicTableRow :=
  { main_concepts := ["Technical Knowledge", "Problem Solving", "Best Practices"]
    skills := ["Programming", "Debugging", "Testing", "Documentation"]
    technologies := ["Version Control", "IDEs", "Testing Frameworks"]
    focus_areas := ["Core Concepts", "Practical Application", "Industry Standards"]
    relevance_keywords := ["code", "programming", "development", "software", "technical"] }

/-- `complexity_map` of the topic fallback. -/
def complexityMap : List (String × String) :=
  [("fresher", "low"), ("junior", "medium"), ("mid-level", "medium"),
   ("senior", "high"), ("lead-manager", "high")]

/-- `TopicAnalysisAgent.generate_fallback_result`. -/
def TopicAnalysisAgent.generate_fallback_result (input_data : TopicInput) (_ctx : Ctx) :
    TopicAnalysis :=
  let topic := input_data.topic.getD "General Technology"
  let style := input_data.style.getD "technical"
  let experience_level := input_data.experience_level.getD "junior"
  let topic_lower := pyLower topic
  let analysis_data :=
    ((topicFallbackMappings.find? fun kv => strContains topic_lower kv.1).map
      (fun kv => kv.2)).getD topicGenericRow
  { main_concepts := analysis_data.main_concepts
    skills := analysis_data.skills
    technologies := analysis_data.technologies
    focus_areas := analysis_data.focus_areas
    complexity := lookupD complexityMap experience_level "medium"
    question_categories := [style, "fundamentals", "practical"]
    relevance_keywords := analysis_data.relevance_keywords }

/-- Topic fallback followed by pydantic validation of the result. -/
def TopicAnalysisAgent.generate_fallback_resultE (input_data : TopicInput) (ctx : Ctx) :
    Except String TopicAnalysis :=
  validate TopicAnalysis.valid (TopicAnalysisAgent.generate_fallback_result input_data ctx)

/-- `TopicAnalysisAgent`'s `execute`. -/
def TopicAnalysisAgent.execute (m : ModelOutcome TopicAnalysis) (input_data : TopicInput)
    (ctx : Ctx) : Except String TopicAnalysis :=
  BaseAgent.execute TopicAnalysisAgent.generate_fallback_resultE m input_data ctx

/-- `input_data` built by `analyze_topic` from a config. -/
def TopicAnalysisAgent.analyze_topic_input (config : InterviewConfig) : TopicInput :=
  ⟨some config.topic, some config.style, some config.experience_level, some config.company_name⟩

/-! ### Question-Generation agent (agents/question_generation_agent.py) -/

/-- A question specification dict (built by the orchestrator). -/
structure QuestionSpec where
  category : String
  difficulty : String
  focus_area : String
  concepts : List String
  avoid_topics : List String
  question_type : String
deriving DecidableEq, Repr

/-- `input_data` built by `QuestionGenerationAgent.generate_question`. -/
structure QGInput where
  question_spec : Option QuestionSpec
  topic_analysis : Option TopicAnalysis
  config : Option ConfigDump
deriving DecidableEq, Repr

/-- The per-style, per-difficulty template table `fallback_questions`,
interpolating the topic as the source's f-strings do. -/
def qgFallbackQuestions (topic : String) : List (String × List (String × List String)) :=
  [("technical",
    [("easy",
      ["What are the basic concepts of " ++ topic ++ "?",
       "How would you explain " ++ topic ++ " to a beginner?",
       "What tools do you use for " ++ topic ++ " development?"]),
     ("medium",
      ["Describe a challenging problem you solved using " ++ topic ++ ".",
       "How do you optimize performance in " ++ topic ++ " applications?",
       "What are the best practices for " ++ topic ++ " development?"]),
     ("hard",
      ["Design a scalable architecture for a " ++ topic ++ " system.",
       "How would you handle complex state management in " ++ topic ++ "?",
       "Explain advanced concepts and patterns in " ++ topic ++ "."])]),
   ("hr",
    [("easy",
      ["Why are you interested in " ++ topic ++ "?",
       "What motivates you to work with " ++ topic ++ "?",
       "How do you stay updated with " ++ topic ++ " trends?"]),
     ("medium",
      ["Describe a project where you used " ++ topic ++ " successfully.",
       "How do you handle challenges when working with " ++ topic ++ "?",
       "What's your approach to learning new " ++ topic ++ " technologies?"]),
     ("hard",
      ["How would you lead a team working on " ++ topic ++ " projects?",
       "What's your vision for the future of " ++ topic ++ "?",
       "How do you balance innovation and stability in " ++ topic ++ " work?"])]),
   ("behavioral",
    [("easy",
      ["Tell me about a time you learned " ++ topic ++ ".",
       "Describe your experience working with " ++ topic ++ ".",
       "How do you approach " ++ topic ++ " problems?"]),
     ("medium",
      ["Tell me about a challenging " ++ topic ++ " project you worked on.",
       "Describe a time you had to debug a complex " ++ topic ++ " issue.",
       "How did you handle a situation where " ++ topic ++ " requirements changed?"]),
     ("hard",
      ["Tell me about a time you had to make a critical decision about " ++ topic ++ " architecture.",
       "Describe how you influenced others to adopt " ++ topic ++ " best practices.",
       "How did you handle a major " ++ topic ++ " system failure?"])])]

/-- `difficulty_map` of the question-generation fallback. -/
def qgDifficultyMap : List (String × String) :=
  [("fresher", "easy"), ("junior", "medium"), ("mid-level", "medium"),
   ("senior", "hard"), ("lead-manager", "hard")]

/-- The config fields the question-generation fallback reads (with the
source's `.get` defaults). -/
def QGInput.topic (input_data : QGInput) : String :=
  ((input_data.config.getD ConfigDump.empty).topic).getD "Technology"

def QGInput.style (input_data : QGInput) : String :=
  ((input_data.config.getD ConfigDump.empty).style).getD "technical"

def QGInput.experience (input_data : QGInput) : String :=
  ((input_data.config.getD ConfigDump.empty).experience_level).getD "junior"

/-- The experience-derived difficulty of the fallback. -/
def QGInput.fallbackDifficulty (input_data : QGInput) : String :=
  lookupD qgDifficultyMap input_data.experience "medium"

/-- The template bucket the fallback draws from:
`fallback_questions.get(style, fallback_questions["technical"])`
then `.get(difficulty, style_questions["medium"])`.  It depends only on
the config's topic, style and experience level. -/
def QGInput.fallbackBucket (input_data : QGInput) : List String :=
  let table := qgFallbackQuestions input_data.topic
  let technicalTable := lookupD table "technical" []
  let style_questions := lookupD table input_data.style technicalTable
  lookupD style_questions input_data.fallbackDifficulty (lookupD style_questions "medium" [])

/-- `QuestionGenerationAgent.generate_fallback_result`.  `draw` stands for
the state of the RNG consumed by `random.choice`. -/
def QuestionGenerationAgent.generate_fallback_result (input_data : QGInput) (_ctx : Ctx)
    (draw : Nat) : QuestionResult :=
  let style := input_data.style
  let difficulty := input_data.fallbackDifficulty
  let selected_question := pyChoice input_data.fallbackBucket draw
  { question := selected_question
    metadata :=
      { category := style
        difficulty := difficulty
        focus_area := "General Knowledge"
        concepts := ["Core Concepts"]
        question_type := "theoretical"
        estimated_time := some "5 minutes" }
    reasoning := "Fallback question for " ++ style ++ " interview at " ++ difficulty ++ " level" }

/-- Question-generation fallback followed by pydantic validation. -/
def QuestionGenerationAgent.generate_fallback_resultE (input_data : QGInput) (ctx : Ctx)
    (draw : Nat) : Except String QuestionResult :=
  validate QuestionResult.valid
    (QuestionGenerationAgent.generate_fallback_result input_data ctx draw)

/-- `QuestionGenerationAgent`'s `execute`. -/
def QuestionGenerationAgent.execute (m : ModelOutcome QuestionResult) (input_data : QGInput)
    (ctx : Ctx) (draw : Nat) : Except String QuestionResult :=
  BaseAgent.execute (fun i c => QuestionGenerationAgent.generate_fallback_resultE i c draw)
    m input_data ctx

/-! ### Response-Analysis agent (agents/response_analysis_agent.py) -/

/-- `input_data` built by `ResponseAnalysisAgent.analyze_response`. -/
structure RespInput where
  question : Option String
  response : Option String
  config : Option ConfigDump
  question_number : Option Int
deriving DecidableEq, Repr

/-- `ResponseAnalysisAgent.generate_fallback_result`: length- and
lexical-cue-based scoring.  Python computes `70 + len/50` etc. in floats;
the values are rationals here and rounded with `pyRound` at pydantic
construction (`round(...)` in the source). -/
def ResponseAnalysisAgent.generate_fallback_result (input_data : RespInput) (_ctx : Ctx) :
    ResponseAnalysisResult :=
  let response := input_data.response.getD ""
  let style := ((input_data.config.getD ConfigDump.empty).style).getD "technical"
  let response_length : ℚ := response.length
  let clarity : ℚ := min 95 (max 60 (70 + response_length / 50))
  let structure_ : ℚ :=
    if response.data.contains '.' && decide (response.length > 50) then 75 else 65
  let technical : ℚ := if style = "technical" then 70 else 75
  let communication : ℚ := min 90 (max 60 (65 + response_length / 40))
  let confidence : ℚ := if strContains (pyLower response) "i think" then 65 else 75
  let relevance : ℚ := 75
  let overall_score :=
    pyRound ((clarity + structure_ + technical + communication + confidence + relevance) / 6)
  { response_analysis :=
      { clarity := pyRound clarity
        structure_ := pyRound structure_
        technical := pyRound technical
        communication := pyRound communication
        confidence := pyRound confidence
        relevance := pyRound relevance }
    strengths := ["Shows understanding of the topic", "Provides relevant information"]
    improvements := ["Add more specific examples", "Structure response more clearly"]
    feedback := "Good response with relevant content. Consider adding more specific examples and structuring your answer more clearly."
    score := overall_score
    key_insights := ["Response demonstrates basic understanding", "Could benefit from more detailed examples"]
    reasoning := "Fallback analysis based on response characteristics" }

/-- Response fallback followed by pydantic validation. -/
def ResponseAnalysisAgent.generate_fallback_resultE (input_data : RespInput) (ctx : Ctx) :
    Except String ResponseAnalysisResult :=
  validate ResponseAnalysisResult.valid
    (ResponseAnalysisAgent.generate_fallback_result input_data ctx)

/-- `ResponseAnalysisAgent`'s `execute`. -/
def ResponseAnalysisAgent.execute (m : ModelOutcome ResponseAnalysisResult)
    (input_data : RespInput) (ctx : Ctx) : Except String ResponseAnalysisResult :=
  BaseAgent.execute ResponseAnalysisAgent.generate_fallback_resultE m input_data ctx

/-! ### Overall-Analysis agent (agents/overall_analysis_agent.py) -/

/-- The `response_analysis` sub-dict of one per-response analysis, read
with `scores.get(key, 70)`.  Values may be floats on the orchestrator
fallback path, hence `ℚ`. -/
structure ScoresDict where
  clarity : Option ℚ
  structure_ : Option ℚ
  technical : Option ℚ
  communication : Option ℚ
  confidence : Option ℚ
  relevance : Option ℚ
deriving DecidableEq, Repr

def ScoresDict.empty : ScoresDict := ⟨none, none, none, none, none, none⟩

/-- The `analysis` sub-dict of one per-response analysis entry. -/
structure AnalysisData where
  response_analysis : Option ScoresDict
  score : Option ℚ
  strengths : Option (List String)
  improvements : Option (List String)
  feedback : Option String
  key_insights : Option (List String)
  reasoning : Option String
deriving DecidableEq, Repr

def AnalysisData.empty : AnalysisData := ⟨none, none, none, none, none, none, none⟩

/-- One element of the `response_analyses` list handed to the
Overall-Analysis agent by the performance orchestrator. -/
structure AnalysisEntry where
  question_id : Option String
  question : Option String
  response : Option String
  timestamp : Option Int
  analysis : Option AnalysisData
  metadata : Option (List (String × MetaVal))
deriving DecidableEq, Repr

/-- `analysis.get("analysis", {})`. -/
def AnalysisEntry.analysisData (e : AnalysisEntry) : AnalysisData :=
  e.analysis.getD AnalysisData.empty

/-- `analysis_data.get("score", 70)` — the per-response overall score. -/
def AnalysisEntry.scoreD (e : AnalysisEntry) : ℚ :=
  e.analysisData.score.getD 70

/-- `scores.get(key, 70)` for one of the six dimensions. -/
def AnalysisEntry.compD (e : AnalysisEntry) (sel : ScoresDict → Option ℚ) : ℚ :=
  (sel (e.analysisData.response_analysis.getD ScoresDict.empty)).getD 70

/-- `session_metadata` computed by the performance orchestrator. -/
structure SessionMeta where
  total_questions : Nat
  total_duration : Int
  average_response_time : ℚ
  interview_style : String
  experience_level : String
deriving DecidableEq, Repr

/-- `input_data` built by `analyze_overall_performance`. -/
structure OverallInput where
  response_analyses : Option (List AnalysisEntry)
  config : Option ConfigDump
  session_metadata : Option SessionMeta
deriving DecidableEq, Repr

/-- `config_data.get("topic", default)` inside the overall fallback. -/
def OverallInput.topicD (input_data : OverallInput) (default : String) : String :=
  ((input_data.config.getD ConfigDump.empty).topic).getD default

/-- `OverallAnalysisAgent.generate_fallback_result`.  The accumulation
loop over `response_analyses` becomes `map`/`sum`; `list(set(...))` is
modelled as first-occurrence deduplication (`eraseDups`), which is what a
fixed hash seed produces within one process. -/
def OverallAnalysisAgent.generate_fallback_result (input_data : OverallInput) (_ctx : Ctx) :
    PerformanceAnalytics :=
  let response_analyses := input_data.response_analyses.getD []
  if response_analyses = [] then
    { overall_score := 70
      performance_level := "fair"
      strengths := ["Shows willingness to participate"]
      improvements := ["Complete more interview questions"]
      response_analysis :=
        { clarity := 70, structure_ := 70, technical := 70
          communication := 70, confidence := 70, relevance := 70 }
      trends := [("improvement", "consistent"), ("consistency", "medium"), ("adaptability", "medium")]
      recommendations := ["Practice more interview scenarios"]
      executive_summary := "Limited data available for comprehensive analysis."
      next_steps := ["Complete full interview sessions"]
      question_reviews := []
      metadata := [("fallback", .bool true), ("total_responses", .int 0)] }
  else
    let num_responses : ℚ := response_analyses.length
    let avgOf := fun (sel : ScoresDict → Option ℚ) =>
      pyRound ((response_analyses.map fun e => e.compD sel).sum / num_responses)
    let total_score := (response_analyses.map fun e => e.scoreD).sum
    let overall_score := pyRound (total_score / num_responses)
    let performance_level :=
      if overall_score ≥ 85 then "excellent"
      else if overall_score ≥ 70 then "good"
      else if overall_score ≥ 60 then "fair"
      else "needs_improvement"
    let all_strengths := response_analyses.flatMap fun e => e.analysisData.strengths.getD []
    let all_improvements := response_analyses.flatMap fun e => e.analysisData.improvements.getD []
    let question_reviews := response_analyses.enum.map fun ie =>
      { question_id := ie.2.question_id.getD ("q" ++ toString (ie.1 + 1))
        question := ie.2.question.getD ""
        response := ie.2.response.getD ""
        score := ie.2.scoreD
        feedback := ie.2.analysisData.feedback.getD "Good response" : QuestionReview }
    let unique_strengths :=
      if all_strengths = [] then
        ["Shows understanding of core concepts",
         "Demonstrates relevant experience",
         "Communicates ideas clearly"]
      else all_strengths.eraseDups.take 3
    let unique_improvements :=
      if all_improvements = [] then
        ["Provide more specific examples",
         "Structure responses more clearly",
         "Practice confident delivery"]
      else all_improvements.eraseDups.take 3
    { overall_score := overall_score
      performance_level := performance_level
      strengths := unique_strengths
      improvements := unique_improvements
      response_analysis :=
        { clarity := avgOf (fun s => s.clarity)
          structure_ := avgOf (fun s => s.structure_)
          technical := avgOf (fun s => s.technical)
          communication := avgOf (fun s => s.communication)
          confidence := avgOf (fun s => s.confidence)
          relevance := avgOf (fun s => s.relevance) }
      trends := [("improvement", "consistent"), ("consistency", "medium"), ("adaptability", "medium")]
      recommendations :=
        ["Practice structuring responses using frameworks like STAR method",
         "Prepare specific examples for common question types",
         "Work on confident delivery and clear communication",
         "Focus on improving " ++ input_data.topicD "technical" ++ " knowledge depth"]
      executive_summary :=
        "The candidate demonstrated " ++ performance_level ++
          " performance with an overall score of " ++ toString overall_score ++
          "%. They show solid understanding of " ++ input_data.topicD "the subject" ++
          " concepts but could benefit from more structured responses and specific examples."
      next_steps :=
        ["Practice mock interviews focusing on response structure",
         "Prepare a portfolio of specific examples for different scenarios",
         "Work on confident delivery and clear articulation",
         "Deepen knowledge in " ++ input_data.topicD "the subject" ++
           " through additional study and practice"]
      question_reviews := question_reviews
      metadata :=
        [("fallback", .bool true),
         ("total_responses", .int response_analyses.length),
         ("analysis_method", .str "fallback")] }

/-- Overall fallback followed by pydantic validation (this construction
CAN raise: nothing bounds the incoming scores). -/
def OverallAnalysisAgent.generate_fallback_resultE (input_data : OverallInput) (ctx : Ctx) :
    Except String PerformanceAnalytics :=
  validate PerformanceAnalytics.valid
    (OverallAnalysisAgent.generate_fallback_result input_data ctx)

/-- `OverallAnalysisAgent`'s `execute`. -/
def OverallAnalysisAgent.execute (m : ModelOutcome PerformanceAnalytics)
    (input_data : OverallInput) (ctx : Ctx) : Except String PerformanceAnalytics :=
  BaseAgent.execute OverallAnalysisAgent.generate_fallback_resultE m input_data ctx

/-! ### Performance orchestrator (agents/performance_orchestrator.py)

The orchestrator's `analysis_cache` write is omitted: no claim concerns
it and it does not affect any returned value.  Model-boundary behaviour
enters as one `ModelOutcome` per agent call (`respOutcomes i` is the
outcome of the Response-Analysis call for the i-th response). -/

/-- `config.model_dump()` of a `ResponseAnalysisResult` as it appears in
the `analysis` entry dicts (`analysis_result.model_dump()`). -/
def ResponseAnalysisResult.dumpAnalysis (r : ResponseAnalysisResult) : AnalysisData :=
  { response_analysis := some
      { clarity := some (r.response_analysis.clarity : ℚ)
        structure_ := some (r.response_analysis.structure_ : ℚ)
        technical := some (r.response_analysis.technical : ℚ)
        communication := some (r.response_analysis.communication : ℚ)
        confidence := some (r.response_analysis.confidence : ℚ)
        relevance := some (r.response_analysis.relevance : ℚ) }
    score := some (r.score : ℚ)
    strengths := some r.strengths
    improvements := some r.improvements
    feedback := some r.feedback
    key_insights := some r.key_insights
    reasoning := some r.reasoning }

/-- `PerformanceAnalysisOrchestrator.generate_fallback_response_analysis`:
the per-item orchestrator-level fallback dict (raw floats, no rounding,
no pydantic validation — it is a plain dict in the source). -/
def PerformanceAnalysisOrchestrator.generate_fallback_response_analysis
    (response : String) (config : InterviewConfig) : AnalysisData :=
  let response_length : ℚ := response.length
  { response_analysis := some
      { clarity := some (min 95 (max 60 (70 + response_length / 50)))
        structure_ := some (if response.data.contains '.' then 75 else 65)
        technical := some (if config.style = "technical" then 70 else 75)
        communication := some (min 90 (max 60 (65 + response_length / 40)))
        confidence := some (if strContains (pyLower response) "i think" then 65 else 75)
        relevance := some 75 }
    score := some 75
    strengths := some ["Shows understanding of the topic"]
    improvements := some ["Add more specific examples"]
    feedback := some "Good response with relevant content. Consider adding more specific examples."
    key_insights := some ["Response demonstrates understanding"]
    reasoning := some "Fallback analysis based on response characteristics" }

/-- `analyze_individual_responses`: one Response-Analysis call per
response; on a per-item failure substitute the local fallback dict for
that item only. -/
def PerformanceAnalysisOrchestrator.analyze_individual_responses
    (responses : List InterviewResponse) (config : InterviewConfig)
    (respOutcomes : Nat → ModelOutcome ResponseAnalysisResult) : List AnalysisEntry :=
  responses.enum.map fun ir =>
    let i : Nat := ir.1
    let response := ir.2
    let input : RespInput :=
      ⟨some response.question, some response.response, some config.dump, some ((i : Int) + 1)⟩
    match ResponseAnalysisAgent.execute (respOutcomes i) input [] with
    | .ok analysis_result =>
        { question_id := some response.question_id
          question := some response.question
          response := some response.response
          timestamp := some response.timestamp
          analysis := some analysis_result.dumpAnalysis
          metadata := some [("analyzed_at", .str "2024-01-01T00:00:00Z")] }
    | .error _ =>
        { question_id := some response.question_id
          question := some response.question
          response := some response.response
          timestamp := some response.timestamp
          analysis := some
            (PerformanceAnalysisOrchestrator.generate_fallback_response_analysis
              response.response config)
          metadata := some [("fallback", .bool true), ("analyzed_at", .str "2024-01-01T00:00:00Z")] }

/-- `session_metadata` of `generate_overall_analysis`. -/
def PerformanceAnalysisOrchestrator.sessionMetadata
    (responses : List InterviewResponse) (config : InterviewConfig) : SessionMeta :=
  { total_questions := responses.length
    total_duration :=
      match responses.head?, responses.getLast? with
      | some first, some last => last.timestamp - first.timestamp
      | _, _ => 0
    average_response_time :=
      if responses = [] then 0
      else (responses.map fun r => ((r.duration.getD 0 : Int) : ℚ)).sum / responses.length
    interview_style := config.style
    experience_level := config.experience_level }

/-- The mean of the per-entry `score` values used by the orchestrator's
overall fallback (70 when the list is empty, as in the source). -/
def orchMeanScore (response_analyses : List AnalysisEntry) : ℚ :=
  if response_analyses = [] then 70
  else (response_analyses.map fun e => e.scoreD).sum / response_analyses.length

/-- `PerformanceAnalysisOrchestrator.generate_fallback_overall_analysis`
before pydantic validation.  Note its thresholds: `good` from mean 80,
`fair` from mean 60, never `excellent`. -/
def PerformanceAnalysisOrchestrator.generate_fallback_overall_analysis_raw
    (response_analyses : List AnalysisEntry) (config : InterviewConfig) : PerformanceAnalytics :=
  let avg_score := orchMeanScore response_analyses
  let performance_level :=
    if avg_score ≥ 80 then "good" else if avg_score ≥ 60 then "fair" else "needs_improvement"
  { overall_score := pyRound avg_score
    performance_level := performance_level
    strengths := ["Shows understanding of core concepts"]
    improvements := ["Provide more specific examples"]
    response_analysis :=
      { clarity := pyRound avg_score
        structure_ := pyRound (avg_score - 5)
        technical := pyRound avg_score
        communication := pyRound avg_score
        confidence := pyRound (avg_score - 10)
        relevance := pyRound avg_score }
    trends := [("improvement", "consistent"), ("consistency", "medium"), ("adaptability", "medium")]
    recommendations := ["Practice structured responses"]
    executive_summary :=
      "Candidate demonstrated fair performance with room for improvement in " ++ config.topic ++ "."
    next_steps := ["Practice mock interviews"]
    question_reviews := []
    metadata :=
      [("fallback", .bool true),
       ("total_responses", .int response_analyses.length),
       ("analysis_method", .str "fallback")] }

/-- The orchestrator-level overall fallback with pydantic validation. -/
def PerformanceAnalysisOrchestrator.generate_fallback_overall_analysis
    (response_analyses : List AnalysisEntry) (config : InterviewConfig) :
    Except String PerformanceAnalytics :=
  validate PerformanceAnalytics.valid
    (PerformanceAnalysisOrchestrator.generate_fallback_overall_analysis_raw
      response_analyses config)

/-- `generate_overall_analysis`: run the Overall-Analysis agent; on ANY
error fall back to the orchestrator-local aggregate (whose own pydantic
construction may raise further, propagating to the caller). -/
def PerformanceAnalysisOrchestrator.generate_overall_analysis
    (response_analyses : List AnalysisEntry) (config : InterviewConfig)
    (responses : List InterviewResponse) (m : ModelOutcome PerformanceAnalytics) :
    Except String PerformanceAnalytics :=
  let input : OverallInput :=
    ⟨some response_analyses, some config.dump,
     some (PerformanceAnalysisOrchestrator.sessionMetadata responses config)⟩
  match OverallAnalysisAgent.execute m input [] with
  | .ok v => .ok v
  | .error _ =>
      PerformanceAnalysisOrchestrator.generate_fallback_overall_analysis response_analyses config

/-- `generate_fallback_analytics` (the outermost catch-all; constants
only, always schema-valid). -/
def PerformanceAnalysisOrchestrator.generate_fallback_analytics
    (responses : List InterviewResponse) (_config : InterviewConfig) : PerformanceAnalytics :=
  let question_reviews := responses.enum.map fun ir =>
    { question_id := ir.2.question_id
      question := ir.2.question
      response := ir.2.response
      score := ((70 + ir.1 * 5 : Int) : ℚ)
      feedback := "Good response with room for improvement." : QuestionReview }
  { overall_score := 75
    performance_level := "fair"
    strengths := ["Clear communication", "Good technical understanding"]
    improvements := ["Add more specific examples", "Structure responses better"]
    response_analysis :=
      { clarity := 75, structure_ := 70, technical := 80
        communication := 75, confidence := 70, relevance := 75 }
    trends := [("improvement", "consistent"), ("consistency", "medium"), ("adaptability", "medium")]
    recommendations := ["Practice structured responses"]
    executive_summary := "Candidate showed good understanding with room for improvement."
    next_steps := ["Continue practicing interview scenarios"]
    question_reviews := question_reviews
    metadata :=
      [("generated_at", .str "2024-01-01T00:00:00Z"),
       ("analysis_method", .str "fallback"),
       ("total_responses", .int responses.length),
       ("framework", .str "Pydantic AI")] }

/-- `generate_comprehensive_analytics`: per-response analysis, then the
overall synthesis; the outermost `except` substitutes
`generate_fallback_analytics` (whose pydantic construction is validated
like every other; an error there would escape to the HTTP layer). -/
def PerformanceAnalysisOrchestrator.generate_comprehensive_analytics
    (responses : List InterviewResponse) (config : InterviewConfig)
    (respOutcomes : Nat → ModelOutcome ResponseAnalysisResult)
    (overallOutcome : ModelOutcome PerformanceAnalytics) : Except String PerformanceAnalytics :=
  let response_analyses :=
    PerformanceAnalysisOrchestrator.analyze_individual_responses responses config respOutcomes
  match PerformanceAnalysisOrchestrator.generate_overall_analysis
      response_analyses config responses overallOutcome with
  | .ok v => .ok v
  | .error _ =>
      validate PerformanceAnalytics.valid
        (PerformanceAnalysisOrchestrator.generate_fallback_analytics responses config)

/-! ### Question orchestrator (agents/orchestrator.py)

`session_memory` is an association list from keys to either a cached
topic-analysis dump (possibly extended by `dict.update`, which would make
the later `TopicAnalysis(**dump)` reconstruction raise a `TypeError`) or
a per-session dict of scalars. -/

/-- A value of `self.session_memory`. -/
inductive MemVal where
  | topicDump (ta : TopicAnalysis) (extra : List (String × MetaVal))
  | sess (entries : List (String × MetaVal))
deriving DecidableEq, Repr

/-- Python `dict` lookup over the association-list model. -/
def dictGet {α : Type} : List (String × α) → String → Option α
  | [], _ => none
  | (k, v) :: rest, key => if key = k then some v else dictGet rest key

/-- Python `dict` assignment `d[key] = v` (replace in place or append). -/
def dictSet {α : Type} : List (String × α) → String → α → List (String × α)
  | [], key, v => [(key, v)]
  | (k, v') :: rest, key, v =>
      if k = key then (key, v) :: rest else (k, v') :: dictSet rest key v

/-- Python `d.update(data)`: assign every pair of `data` in order. -/
def dictUpdate {α : Type} (d : List (String × α)) (data : List (String × α)) :
    List (String × α) :=
  data.foldl (fun acc kv => dictSet acc kv.1 kv.2) d

/-- The orchestrator's `session_memory`. -/
def OrchState : Type := List (String × MemVal)

/-- `AgenticOrchestrator.get_session_id`:
`f"{topic}_{style}_{experience_level}".replace(" ", "_").lower()`. -/
def AgenticOrchestrator.get_session_id (config : InterviewConfig) : String :=
  pyLower (pyReplaceSpace (config.topic ++ "_" ++ config.style ++ "_" ++ config.experience_level))

/-- The cache key under which a session's topic analysis is stored. -/
def topicCacheKey (session_id : String) : String :=
  session_id ++ "_topic_analysis"

/-- `AgenticOrchestrator.update_session_memory`: initialise the session
dict if absent, then `dict.update` it.  Updating a key that holds a topic
dump would merge session scalars into the dump (Python dicts are untyped);
the `topicDump` `extra` field records such pollution. -/
def AgenticOrchestrator.update_session_memory (st : OrchState) (session_id : String)
    (data : List (String × MetaVal)) : OrchState :=
  match dictGet st session_id with
  | some (.sess entries) => dictSet st session_id (.sess (dictUpdate entries data))
  | some (.topicDump ta extra) => dictSet st session_id (.topicDump ta (dictUpdate extra data))
  | none => dictSet st session_id (.sess (dictUpdate [] data))

/-- `AgenticOrchestrator.get_or_create_topic_analysis`.  Returns the
analysis (or the raised error), the updated memory, and whether the
Topic-Analysis agent was invoked.  A cache hit re-runs
`TopicAnalysis(**dump)`, i.e. pydantic validation of the stored dump; a
polluted dump raises. -/
def AgenticOrchestrator.get_or_create_topic_analysis (st : OrchState)
    (config : InterviewConfig) (session_id : String) (m : ModelOutcome TopicAnalysis) :
    Except String TopicAnalysis × OrchState × Bool :=
  let cache_key := topicCacheKey session_id
  match dictGet st cache_key with
  | some (.topicDump ta extra) =>
      if extra = [] then (validate TopicAnalysis.valid ta, st, false)
      else (.error "TypeError", st, false)
  | some (.sess _) => (.error "TypeError", st, false)
  | none =>
      match TopicAnalysisAgent.execute m (TopicAnalysisAgent.analyze_topic_input config) [] with
      | .ok ta => (.ok ta, dictSet st cache_key (.topicDump ta []), true)
      | .error e => (.error e, st, true)

/-- `AgenticOrchestrator.create_simple_question_spec`.  The sequential
difficulty overwrites of the source collapse to one conditional; the
focus-area subscript uses Python indexing (`pyIndex`) and can raise for
non-positive question numbers. -/
def AgenticOrchestrator.create_simple_question_spec (topic_analysis : TopicAnalysis)
    (config : InterviewConfig) (previous_questions : List String) (question_number : Int) :
    Except String QuestionSpec :=
  let difficulty :=
    if question_number > 2 then
      (if config.experience_level = "fresher" then "medium" else "hard")
    else if question_number > 1 then "medium"
    else "easy"
  let focus_areas :=
    if topic_analysis.focus_areas = [] then ["General Knowledge"] else topic_analysis.focus_areas
  match pyIndex focus_areas (min (question_number - 1) ((focus_areas.length : Int) - 1)) with
  | .error e => .error e
  | .ok focus_area =>
      let concepts :=
        if topic_analysis.main_concepts = [] then ["Core Concepts"]
        else topic_analysis.main_concepts.take 2
      let question_type :=
        if config.style = "behavioral" then "scenario"
        else if config.style = "case-study" then "problem-solving"
        else if question_number > 1 then "practical"
        else "theoretical"
      .ok
        { category := config.style
          difficulty := difficulty
          focus_area := focus_area
          concepts := concepts
          avoid_topics := previous_questions
          question_type := question_type }

/-- The static per-style fallback question lists of
`AgenticOrchestrator.generate_fallback_question`. -/
def orchestratorFallbackQuestions (topic : String) : List (String × List String) :=
  [("technical",
    ["What are the key concepts and best practices in " ++ topic ++ "?",
     "How would you approach solving a complex problem using " ++ topic ++ "?",
     "Explain the architecture and design patterns you would use for a " ++ topic ++ " project.",
     "What are the performance considerations when working with " ++ topic ++ "?",
     "How do you ensure code quality and maintainability in " ++ topic ++ " development?"]),
   ("hr",
    ["Why are you passionate about working with " ++ topic ++ "?",
     "How do you stay current with developments in " ++ topic ++ "?",
     "Describe your experience and growth in " ++ topic ++ ".",
     "What challenges have you faced while working with " ++ topic ++ "?",
     "How do you see your career developing in the " ++ topic ++ " field?"]),
   ("behavioral",
    ["Tell me about a successful project you completed using " ++ topic ++ ".",
     "Describe a time when you had to learn " ++ topic ++ " quickly for a project.",
     "How did you handle a difficult technical challenge involving " ++ topic ++ "?",
     "Tell me about a time you had to collaborate with others on a " ++ topic ++ " project.",
     "Describe how you've improved your " ++ topic ++ " skills over time."])]

/-- `AgenticOrchestrator.generate_fallback_question`:
`style_questions[min(question_number - 1, len - 1)]` (Python indexing, so
a sufficiently negative question number raises). -/
def AgenticOrchestrator.generate_fallback_question (config : InterviewConfig)
    (question_number : Int) : Except String String :=
  let table := orchestratorFallbackQuestions config.topic
  let style_questions := lookupD table config.style (lookupD table "technical" [])
  pyIndex style_questions (min (question_number - 1) ((style_questions.length : Int) - 1))

/-- `AgenticOrchestrator.generate_question_streamlined`: build the spec,
invoke Question-Generation, and on any error inside the inner `try`
return the static fallback question (which itself may raise). -/
def AgenticOrchestrator.generate_question_streamlined (topic_analysis : TopicAnalysis)
    (config : InterviewConfig) (previous_questions : List String) (question_number : Int)
    (qgOutcome : ModelOutcome QuestionResult) (draw : Nat) : Except String String :=
  match AgenticOrchestrator.create_simple_question_spec topic_analysis config
      previous_questions question_number with
  | .ok question_spec =>
      match QuestionGenerationAgent.execute qgOutcome
          ⟨some question_spec, some topic_analysis, some config.dump⟩ [] draw with
      | .ok generation_result => .ok generation_result.question
      | .error _ => AgenticOrchestrator.generate_fallback_question config question_number
  | .error _ => AgenticOrchestrator.generate_fallback_question config question_number

/-- The observable effect of one `generate_question` call: its returned
question (or escaped exception), the session memory afterwards, whether
the Topic-Analysis agent was invoked, and which topic analysis the call
used. -/
structure GQResult where
  result : Except String String
  state : OrchState
  invoked : Bool
  used : Option TopicAnalysis

/-- `AgenticOrchestrator.generate_question`.  On the success path the
question and its number are recorded into session memory; on an error
the outer `except` re-runs `generate_fallback_question` (deterministic,
so re-evaluating it models the second call). -/
def AgenticOrchestrator.generate_question (st : OrchState) (config : InterviewConfig)
    (previous_questions : List String) (question_number : Int)
    (topicOutcome : ModelOutcome TopicAnalysis) (qgOutcome : ModelOutcome QuestionResult)
    (draw : Nat) : GQResult :=
  let session_id := AgenticOrchestrator.get_session_id config
  match AgenticOrchestrator.get_or_create_topic_analysis st config session_id topicOutcome with
  | (.error _, st', invoked) =>
      { result := AgenticOrchestrator.generate_fallback_question config question_number
        state := st', invoked := invoked, used := none }
  | (.ok topic_analysis, st', invoked) =>
      match AgenticOrchestrator.generate_question_streamlined topic_analysis config
          previous_questions question_number qgOutcome draw with
      | .ok final_question =>
          { result := .ok final_question
            state := AgenticOrchestrator.update_session_memory st' session_id
              [("last_question", .str final_question),
               ("question_number", .int question_number)]
            invoked := invoked, used := some topic_analysis }
      | .error _ =>
          { result := AgenticOrchestrator.generate_fallback_question config question_number
            state := st', invoked := invoked, used := some topic_analysis }

/-- The arguments of one `generate_question` call, together with the
model-boundary behaviour and RNG draw for that call. -/
structure QCall where
  config : InterviewConfig
  previous_questions : List String
  question_number : Int
  topicOutcome : ModelOutcome TopicAnalysis
  qgOutcome : ModelOutcome QuestionResult
  draw : Nat

/-- Run a sequence of `generate_question` calls, returning the final
memory, the number of Topic-Analysis agent invocations, and the topic
analysis used by each call. -/
def runSeq (st : OrchState) : List QCall → OrchState × Nat × List (Option TopicAnalysis)
  | [] => (st, 0, [])
  | c :: cs =>
      let r := AgenticOrchestrator.generate_question st c.config c.previous_questions
        c.question_number c.topicOutcome c.qgOutcome c.draw
      let rest := runSeq r.state cs
      (rest.1, (if r.invoked then 1 else 0) + rest.2.1, r.used :: rest.2.2)

/-- A model outcome is well formed when a successful payload is
schema-valid (pydantic-ai guarantees this: an invalid payload is a
schema-validation failure, i.e. `.fail`). -/
def topicOutcomeValid : ModelOutcome TopicAnalysis → Bool
  | .ok v => v.valid
  | .fail => true

/-! ### The spec's threshold table and input well-formedness -/

/-- Modelled from the spec: the performance-level threshold table of §3 —
at least 85 `excellent`, at least 70 `good`, at least 60 `fair`, otherwise
`needs_improvement`.  Used as the reference function the code paths are
compared against. -/
def specPerformanceLevel (s : ℤ) : String :=
  if s ≥ 85 then "excellent"
  else if s ≥ 70 then "good"
  else if s ≥ 60 then "fair"
  else "needs_improvement"

/-- A score read from an entry dict is absent or within [0, 100]. -/
def optScoreOk : Option ℚ → Bool
  | none => true
  | some q => decide (0 ≤ q) && decide (q ≤ 100)

def scoresDictOk (m : ScoresDict) : Bool :=
  optScoreOk m.clarity && optScoreOk m.structure_ && optScoreOk m.technical
    && optScoreOk m.communication && optScoreOk m.confidence && optScoreOk m.relevance

/-- All numeric values of one analysis entry are in range (the
orchestrator always hands the Overall-Analysis agent such entries as long
as the Response-Analysis model respects the documented score range). -/
def entryOk (e : AnalysisEntry) : Bool :=
  optScoreOk e.analysisData.score
    && scoresDictOk (e.analysisData.response_analysis.getD ScoresDict.empty)

def overallInputOk (input_data : OverallInput) : Bool :=
  (input_data.response_analyses.getD []).all entryOk

/-- Three per-response analyses whose scores are 60, 70 and 90 (each with
a fully populated six-dimension score dict), as the performance
orchestrator would hand them to the Overall-Analysis agent. -/
def c8Entry (s : ℚ) : AnalysisEntry :=
  ⟨some "q", some "Q", some "R", some 0,
    some ⟨some ⟨some s, some s, some s, some s, some s, some s⟩, some s,
      some ["strength"], some ["improvement"], some "feedback", none, none⟩, none⟩

def c8Input : OverallInput :=
  ⟨some [c8Entry 60, c8Entry 70, c8Entry 90],
    some (InterviewConfig.dump ⟨"React", "technical", "junior", none, 30⟩), none⟩

/-! ### Basic lemmas about the primitives -/

theorem pyRound_eq_floor_or_succ (q : ℚ) : pyRound q = ⌊q⌋ ∨ pyRound q = ⌊q⌋ + 1 := by
  unfold pyRound
  split_ifs <;> simp

theorem le_pyRound {a : ℤ} {q : ℚ} (h : (a : ℚ) ≤ q) : a ≤ pyRound q := by
  have hfl : a ≤ ⌊q⌋ := Int.le_floor.2 h
  rcases pyRound_eq_floor_or_succ q with h1 | h1 <;> omega

theorem pyRound_le {b : ℤ} {q : ℚ} (h : q ≤ (b : ℚ)) : pyRound q ≤ b := by
  have hfl : ⌊q⌋ ≤ b := by
    have := Int.floor_le_floor h
    simpa using this
  rcases pyRound_eq_floor_or_succ q with h1 | h1
  · omega
  · -- in the `+ 1` branches the fractional part is at least 1/2
    have hhalf : ¬ (q - ⌊q⌋ < 1/2) := by
      intro hc
      rw [pyRound, if_pos hc] at h1
      omega
    have hge : (1 : ℚ)/2 ≤ q - ⌊q⌋ := le_of_not_lt hhalf
    have hfloor : (⌊q⌋ : ℚ) ≤ q := Int.floor_le q
    have hlt : ((⌊q⌋ : ℚ)) < (b : ℚ) := by linarith
    have : ⌊q⌋ < b := by exact_mod_cast hlt
    omega

theorem pyRound_intCast (n : ℤ) : pyRound (n : ℚ) = n := by
  unfold pyRound
  simp [Int.floor_intCast]

theorem pyChoice_mem {l : List String} (hne : l ≠ []) (k : Nat) :
    pyChoice l k ∈ l := by
  unfold pyChoice
  have hlen : 0 < l.length := List.length_pos.2 hne
  have hlt : k % l.length < l.length := Nat.mod_lt _ hlen
  rw [List.getD_eq_getElem _ _ hlt]
  exact List.getElem_mem _


/-! ### Bounds helpers -/

theorem pyRound_mem {q : ℚ} {a b : ℤ} (h1 : (a : ℚ) ≤ q) (h2 : q ≤ (b : ℚ)) :
    a ≤ pyRound q ∧ pyRound q ≤ b :=
  ⟨le_pyRound h1, pyRound_le h2⟩

theorem scoreD_bounds {e : AnalysisEntry} (h : entryOk e = true) :
    0 ≤ e.scoreD ∧ e.scoreD ≤ 100 := by
  have h1 : optScoreOk e.analysisData.score = true := by
    simp only [entryOk, Bool.and_eq_true] at h
    exact h.1
  unfold AnalysisEntry.scoreD
  cases hs : e.analysisData.score with
  | none => norm_num
  | some q =>
      rw [hs] at h1
      simp only [optScoreOk, Bool.and_eq_true, decide_eq_true_eq] at h1
      simpa using h1

theorem sum_bounds_of_mem (l : List ℚ) (h : ∀ x ∈ l, 0 ≤ x ∧ x ≤ 100) :
    0 ≤ l.sum ∧ l.sum ≤ 100 * l.length := by
  induction l with
  | nil => simp
  | cons x xs ih =>
      have hx := h x (List.mem_cons_self x xs)
      have hxs := ih (fun y hy => h y (List.mem_cons_of_mem x hy))
      simp only [List.sum_cons, List.length_cons]
      push_cast
      constructor
      · linarith [hx.1, hxs.1]
      · linarith [hx.2, hxs.2]

theorem sum_div_length_bounds (l : List ℚ) (hne : l ≠ [])
    (h : ∀ x ∈ l, 0 ≤ x ∧ x ≤ 100) :
    0 ≤ l.sum / l.length ∧ l.sum / l.length ≤ 100 := by
  have hlen : 0 < (l.length : ℚ) := by
    have := List.length_pos.2 hne
    exact_mod_cast this
  have hsum := sum_bounds_of_mem l h
  constructor
  · exact div_nonneg hsum.1 (le_of_lt hlen)
  · rw [div_le_iff₀ hlen]
    linarith [hsum.2]

theorem clamp_bounds (lo hi x : ℚ) (h1 : (0 : ℚ) ≤ lo) (h2 : hi ≤ 100) (h3 : lo ≤ hi) :
    0 ≤ min hi (max lo x) ∧ min hi (max lo x) ≤ 100 := by
  constructor
  · have : lo ≤ min hi (max lo x) := le_min h3 (le_max_left lo x)
    linarith
  · exact le_trans (min_le_left hi _) h2

theorem optScoreOk_getD_bounds {o : Option ℚ} (h : optScoreOk o = true) :
    0 ≤ o.getD 70 ∧ o.getD 70 ≤ 100 := by
  cases o with
  | none => norm_num
  | some q =>
      simp only [optScoreOk, Bool.and_eq_true, decide_eq_true_eq] at h
      simpa using h

theorem compD_bounds {e : AnalysisEntry} (sel : ScoresDict → Option ℚ)
    (hsel : ∀ m : ScoresDict, scoresDictOk m = true → optScoreOk (sel m) = true)
    (h : entryOk e = true) : 0 ≤ e.compD sel ∧ e.compD sel ≤ 100 := by
  have hdict : scoresDictOk (e.analysisData.response_analysis.getD ScoresDict.empty) = true := by
    simp only [entryOk, Bool.and_eq_true] at h
    exact h.2
  exact optScoreOk_getD_bounds (hsel _ hdict)

/-! ### Validity of the fallback results -/

/-- The response fallback's six scores, spelled out. -/
theorem resp_fallback_analysis_eq (input_data : RespInput) (ctx : Ctx) :
    (ResponseAnalysisAgent.generate_fallback_result input_data ctx).response_analysis =
      { clarity := pyRound (min 95 (max 60 (70 + ((input_data.response.getD "").length : ℚ) / 50)))
        structure_ := pyRound
          (if (input_data.response.getD "").data.contains '.'
              && decide ((input_data.response.getD "").length > 50) then (75 : ℚ) else 65)
        technical := pyRound
          (if ((input_data.config.getD ConfigDump.empty).style).getD "technical" = "technical"
            then (70 : ℚ) else 75)
        communication := pyRound (min 90 (max 60 (65 + ((input_data.response.getD "").length : ℚ) / 40)))
        confidence := pyRound
          (if strContains (pyLower (input_data.response.getD "")) "i think" then (65 : ℚ) else 75)
        relevance := pyRound (75 : ℚ) } := rfl

theorem resp_fallback_scores_bounds (input_data : RespInput) (ctx : Ctx) :
    ((ResponseAnalysisAgent.generate_fallback_result input_data ctx).response_analysis).valid
      = true := by
  rw [resp_fallback_analysis_eq]
  simp only [ResponseAnalysis.valid, Bool.and_eq_true, decide_eq_true_eq]
  have hcl := clamp_bounds 60 95 (70 + ((input_data.response.getD "").length : ℚ) / 50)
    (by norm_num) (by norm_num) (by norm_num)
  have hco := clamp_bounds 60 90 (65 + ((input_data.response.getD "").length : ℚ) / 40)
    (by norm_num) (by norm_num) (by norm_num)
  refine ⟨⟨⟨⟨⟨⟨le_pyRound (by exact_mod_cast hcl.1), pyRound_le (by exact_mod_cast hcl.2)⟩, ?_⟩, ?_⟩,
    ⟨le_pyRound (by exact_mod_cast hco.1), pyRound_le (by exact_mod_cast hco.2)⟩⟩, ?_⟩,
    le_pyRound (by norm_num), pyRound_le (by norm_num)⟩
  · split_ifs <;>
      exact ⟨le_pyRound (by norm_num), pyRound_le (by norm_num)⟩
  · split_ifs <;>
      exact ⟨le_pyRound (by norm_num), pyRound_le (by norm_num)⟩
  · split_ifs <;>
      exact ⟨le_pyRound (by norm_num), pyRound_le (by norm_num)⟩

theorem resp_fallback_valid (input_data : RespInput) (ctx : Ctx) :
    (ResponseAnalysisAgent.generate_fallback_result input_data ctx).valid = true := by
  unfold ResponseAnalysisResult.valid
  exact resp_fallback_scores_bounds input_data ctx

theorem resp_fallbackE_ok (input_data : RespInput) (ctx : Ctx) :
    ResponseAnalysisAgent.generate_fallback_resultE input_data ctx =
      .ok (ResponseAnalysisAgent.generate_fallback_result input_data ctx) := by
  unfold ResponseAnalysisAgent.generate_fallback_resultE validate
  rw [if_pos (resp_fallback_valid input_data ctx)]

theorem topic_fallback_valid (input_data : TopicInput) (ctx : Ctx) :
    (TopicAnalysisAgent.generate_fallback_result input_data ctx).valid = true := by
  unfold TopicAnalysisAgent.generate_fallback_result TopicAnalysis.valid
  dsimp only
  simp only [complexityMap, lookupD]
  split_ifs <;> rfl

theorem topic_fallbackE_ok (input_data : TopicInput) (ctx : Ctx) :
    TopicAnalysisAgent.generate_fallback_resultE input_data ctx =
      .ok (TopicAnalysisAgent.generate_fallback_result input_data ctx) := by
  unfold TopicAnalysisAgent.generate_fallback_resultE validate
  rw [if_pos (topic_fallback_valid input_data ctx)]

theorem qg_fallback_valid (input_data : QGInput) (ctx : Ctx) (draw : Nat) :
    (QuestionGenerationAgent.generate_fallback_result input_data ctx draw).valid = true := by
  unfold QuestionGenerationAgent.generate_fallback_result QuestionResult.valid
    QuestionMetadata.valid QGInput.fallbackDifficulty
  dsimp only
  simp only [qgDifficultyMap, lookupD]
  split_ifs <;> rfl

theorem qg_fallbackE_ok (input_data : QGInput) (ctx : Ctx) (draw : Nat) :
    QuestionGenerationAgent.generate_fallback_resultE input_data ctx draw =
      .ok (QuestionGenerationAgent.generate_fallback_result input_data ctx draw) := by
  unfold QuestionGenerationAgent.generate_fallback_resultE validate
  rw [if_pos (qg_fallback_valid input_data ctx draw)]

theorem scoresDictOk_pieces (m : ScoresDict) (h : scoresDictOk m = true) :
    optScoreOk m.clarity = true ∧ optScoreOk m.structure_ = true
      ∧ optScoreOk m.technical = true ∧ optScoreOk m.communication = true
      ∧ optScoreOk m.confidence = true ∧ optScoreOk m.relevance = true := by
  simp only [scoresDictOk, Bool.and_eq_true] at h
  exact ⟨h.1.1.1.1.1, h.1.1.1.1.2, h.1.1.1.2, h.1.1.2, h.1.2, h.2⟩

theorem overall_fallback_valid (input_data : OverallInput) (ctx : Ctx)
    (h : overallInputOk input_data = true) :
    (OverallAnalysisAgent.generate_fallback_result input_data ctx).valid = true := by
  unfold OverallAnalysisAgent.generate_fallback_result
  dsimp only
  by_cases hre : input_data.response_analyses.getD [] = []
  · rw [if_pos hre]
    decide
  · rw [if_neg hre]
    set l := input_data.response_analyses.getD [] with hl
    have hall : ∀ e ∈ l, entryOk e = true := by
      simp only [overallInputOk, List.all_eq_true] at h
      exact h
    have hmapne : ∀ (f : AnalysisEntry → ℚ), l.map f ≠ [] := by
      intro f hmap
      exact hre (by simpa using hmap)
    have hmean : 0 ≤ (l.map fun e => e.scoreD).sum / (l.length : ℚ)
        ∧ (l.map fun e => e.scoreD).sum / (l.length : ℚ) ≤ 100 := by
      have hb := sum_div_length_bounds (l.map fun e => e.scoreD) (hmapne _)
        (by
          intro x hx
          obtain ⟨e, he, rfl⟩ := List.mem_map.1 hx
          exact scoreD_bounds (hall e he))
      simpa using hb
    have hcomp : ∀ (sel : ScoresDict → Option ℚ),
        (∀ m : ScoresDict, scoresDictOk m = true → optScoreOk (sel m) = true) →
        (0 : ℤ) ≤ pyRound ((l.map fun e => e.compD sel).sum / (l.length : ℚ))
          ∧ pyRound ((l.map fun e => e.compD sel).sum / (l.length : ℚ)) ≤ 100 := by
      intro sel hsel
      have hb := sum_div_length_bounds (l.map fun e => e.compD sel) (hmapne _)
        (by
          intro x hx
          obtain ⟨e, he, rfl⟩ := List.mem_map.1 hx
          exact compD_bounds sel hsel (hall e he))
      simp only [List.length_map] at hb
      exact ⟨le_pyRound (by exact_mod_cast hb.1), pyRound_le (by exact_mod_cast hb.2)⟩
    simp only [PerformanceAnalytics.valid, ResponseAnalysis.valid, Bool.and_eq_true,
      decide_eq_true_eq]
    refine ⟨⟨⟨le_pyRound (by exact_mod_cast hmean.1), pyRound_le (by exact_mod_cast hmean.2)⟩,
      ?_⟩, ?_⟩
    · split_ifs <;> rfl
    · exact ⟨⟨⟨⟨⟨hcomp _ (fun m hm => (scoresDictOk_pieces m hm).1),
        hcomp _ (fun m hm => (scoresDictOk_pieces m hm).2.1)⟩,
        hcomp _ (fun m hm => (scoresDictOk_pieces m hm).2.2.1)⟩,
        hcomp _ (fun m hm => (scoresDictOk_pieces m hm).2.2.2.1)⟩,
        hcomp _ (fun m hm => (scoresDictOk_pieces m hm).2.2.2.2.1)⟩,
        hcomp _ (fun m hm => (scoresDictOk_pieces m hm).2.2.2.2.2)⟩

theorem overall_fallbackE_ok (input_data : OverallInput) (ctx : Ctx)
    (h : overallInputOk input_data = true) :
    OverallAnalysisAgent.generate_fallback_resultE input_data ctx =
      .ok (OverallAnalysisAgent.generate_fallback_result input_data ctx) := by
  unfold OverallAnalysisAgent.generate_fallback_resultE validate
  rw [if_pos (overall_fallback_valid input_data ctx h)]

/-! ### Claim theorems -/

/-- C7: for every input (any response string, including empty and
arbitrarily long ones, and any config), the Response-Analysis fallback
returns all six scores within [0, 100], so the `ResponseAnalysis`
construction on the fallback path never fails pydantic validation. -/
theorem C7_response_fallback_scores_in_range (input_data : RespInput) (ctx : Ctx) :
    (0 ≤ (ResponseAnalysisAgent.generate_fallback_result input_data ctx).response_analysis.clarity
      ∧ (ResponseAnalysisAgent.generate_fallback_result input_data ctx).response_analysis.clarity ≤ 100)
    ∧ (0 ≤ (ResponseAnalysisAgent.generate_fallback_result input_data ctx).response_analysis.structure_
      ∧ (ResponseAnalysisAgent.generate_fallback_result input_data ctx).response_analysis.structure_ ≤ 100)
    ∧ (0 ≤ (ResponseAnalysisAgent.generate_fallback_result input_data ctx).response_analysis.technical
      ∧ (ResponseAnalysisAgent.generate_fallback_result input_data ctx).response_analysis.technical ≤ 100)
    ∧ (0 ≤ (ResponseAnalysisAgent.generate_fallback_result input_data ctx).response_analysis.communication
      ∧ (ResponseAnalysisAgent.generate_fallback_result input_data ctx).response_analysis.communication ≤ 100)
    ∧ (0 ≤ (ResponseAnalysisAgent.generate_fallback_result input_data ctx).response_analysis.confidence
      ∧ (ResponseAnalysisAgent.generate_fallback_result input_data ctx).response_analysis.confidence ≤ 100)
    ∧ (0 ≤ (ResponseAnalysisAgent.generate_fallback_result input_data ctx).response_analysis.relevance
      ∧ (ResponseAnalysisAgent.generate_fallback_result input_data ctx).response_analysis.relevance ≤ 100)
    ∧ ResponseAnalysisAgent.generate_fallback_resultE input_data ctx =
        .ok (ResponseAnalysisAgent.generate_fallback_result input_data ctx) := by
  have hv := resp_fallback_scores_bounds input_data ctx
  simp only [ResponseAnalysis.valid, Bool.and_eq_true, decide_eq_true_eq] at hv
  exact ⟨hv.1.1.1.1.1, hv.1.1.1.1.2, hv.1.1.1.2, hv.1.1.2, hv.1.2, hv.2,
    resp_fallbackE_ok input_data ctx⟩

/-- C5 (amended): the Topic-Analysis, Response-Analysis and
Overall-Analysis fallbacks are pure functions of the input alone (in
particular of (input, context)); the Question-Generation fallback is
deterministic only in (input, RNG draw) — the `random.choice` draw is an
extra argument. -/
theorem C5_fallback_determinism :
    (∀ (input_data : TopicInput) (c1 c2 : Ctx),
      TopicAnalysisAgent.generate_fallback_result input_data c1 =
        TopicAnalysisAgent.generate_fallback_result input_data c2)
    ∧ (∀ (input_data : RespInput) (c1 c2 : Ctx),
      ResponseAnalysisAgent.generate_fallback_result input_data c1 =
        ResponseAnalysisAgent.generate_fallback_result input_data c2)
    ∧ (∀ (input_data : OverallInput) (c1 c2 : Ctx),
      OverallAnalysisAgent.generate_fallback_result input_data c1 =
        OverallAnalysisAgent.generate_fallback_result input_data c2)
    ∧ (∀ (input_data : QGInput) (c1 c2 : Ctx) (draw : Nat),
      QuestionGenerationAgent.generate_fallback_result input_data c1 draw =
        QuestionGenerationAgent.generate_fallback_result input_data c2 draw) :=
  ⟨fun _ _ _ => rfl, fun _ _ _ => rfl, fun _ _ _ => rfl, fun _ _ _ _ => rfl⟩

/-- C5 counterexample: with equal input and equal context, two different
RNG draws give two different Question-Generation fallback results, so the
fallback is NOT a function of (input, context) alone. -/
theorem C5_counterexample :
    QuestionGenerationAgent.generate_fallback_result
        ⟨none, none, some (InterviewConfig.dump ⟨"React", "technical", "junior", none, 30⟩)⟩ [] 0
      ≠ QuestionGenerationAgent.generate_fallback_result
        ⟨none, none, some (InterviewConfig.dump ⟨"React", "technical", "junior", none, 30⟩)⟩ [] 1 := by
  decide

theorem qg_bucket_ne_nil (input_data : QGInput) : input_data.fallbackBucket ≠ [] := by
  unfold QGInput.fallbackBucket QGInput.fallbackDifficulty
  simp only [qgFallbackQuestions, qgDifficultyMap, lookupD]
  split_ifs <;> simp [lookupD]

/-- C9: the Question-Generation fallback ignores the question
specification (and the topic analysis): with equal config dumps it draws
from the same template bucket, which is a function of only the config's
style, experience level and topic; the orchestrator's per-question
difficulty progression and `avoid_topics` therefore have no effect on
fallback questions. -/
theorem C9_qg_fallback_ignores_question_spec :
    (∀ (config : Option ConfigDump) (s1 s2 : Option QuestionSpec)
        (t1 t2 : Option TopicAnalysis) (ctx : Ctx) (draw : Nat),
      QuestionGenerationAgent.generate_fallback_result ⟨s1, t1, config⟩ ctx draw =
        QuestionGenerationAgent.generate_fallback_result ⟨s2, t2, config⟩ ctx draw)
    ∧ (∀ (i1 i2 : QGInput), i1.config = i2.config → i1.fallbackBucket = i2.fallbackBucket)
    ∧ (∀ (input_data : QGInput) (ctx : Ctx) (draw : Nat),
      (QuestionGenerationAgent.generate_fallback_result input_data ctx draw).question
        ∈ input_data.fallbackBucket) := by
  refine ⟨fun _ _ _ _ _ _ _ => rfl, ?_, ?_⟩
  · intro i1 i2 h
    unfold QGInput.fallbackBucket QGInput.fallbackDifficulty QGInput.topic QGInput.style
      QGInput.experience
    rw [h]
  · intro input_data ctx draw
    exact pyChoice_mem (qg_bucket_ne_nil input_data) draw

/-- C9 witness: two concrete inputs whose question specifications differ
in difficulty, focus area, concepts, avoided topics and question type,
but whose configs agree, give equal fallback results and share one
template bucket. -/
theorem C9_witness :
    QuestionGenerationAgent.generate_fallback_result
        ⟨some ⟨"technical", "easy", "F1", ["C1"], [], "theoretical"⟩, none,
          some (InterviewConfig.dump ⟨"React", "technical", "junior", none, 30⟩)⟩ [] 4
      = QuestionGenerationAgent.generate_fallback_result
        ⟨some ⟨"technical", "hard", "F2", ["C2"], ["old question"], "practical"⟩, none,
          some (InterviewConfig.dump ⟨"React", "technical", "junior", none, 30⟩)⟩ [] 4
    ∧ QGInput.fallbackBucket
        ⟨some ⟨"technical", "easy", "F1", ["C1"], [], "theoretical"⟩, none,
          some (InterviewConfig.dump ⟨"React", "technical", "junior", none, 30⟩)⟩
      = QGInput.fallbackBucket
        ⟨some ⟨"technical", "hard", "F2", ["C2"], ["old question"], "practical"⟩, none,
          some (InterviewConfig.dump ⟨"React", "technical", "junior", none, 30⟩)⟩ :=
  ⟨C9_qg_fallback_ignores_question_spec.1
      (some (InterviewConfig.dump ⟨"React", "technical", "junior", none, 30⟩))
      (some ⟨"technical", "easy", "F1", ["C1"], [], "theoretical"⟩)
      (some ⟨"technical", "hard", "F2", ["C2"], ["old question"], "practical"⟩)
      none none [] 4,
    C9_qg_fallback_ignores_question_spec.2.1 _ _ rfl⟩

/-- The source's sequential difficulty overwrites agree with the claim's
threshold phrasing for `qn ≥ 1`. -/
theorem difficultyChain_eq (qn : Int) (exp : String) (h : 1 ≤ qn) :
    (if qn > 2 then (if exp = "fresher" then "medium" else "hard")
     else if qn > 1 then "medium" else "easy")
    = (if qn ≤ 1 then "easy" else if qn = 2 then "medium"
       else if exp = "fresher" then "medium" else "hard") := by
  split_ifs <;> first | rfl | omega

/-- C6: for every config and `question_number ≥ 1` the orchestrator's
question specification is built without error and its difficulty is:
`easy` for question 1, `medium` for question 2, and for later questions
`medium` for freshers and `hard` for everyone else (in particular senior
and lead-manager). -/
theorem C6_difficulty_progression (topic_analysis : TopicAnalysis) (config : InterviewConfig)
    (previous_questions : List String) (question_number : Int) (h : 1 ≤ question_number) :
    ∃ spec : QuestionSpec,
      AgenticOrchestrator.create_simple_question_spec topic_analysis config
          previous_questions question_number = .ok spec
      ∧ spec.difficulty =
          (if question_number ≤ 1 then "easy"
           else if question_number = 2 then "medium"
           else if config.experience_level = "fresher" then "medium" else "hard") := by
  have hgen : ∀ fa : List String, 1 ≤ fa.length →
      0 ≤ min (question_number - 1) ((fa.length : Int) - 1)
        ∧ (min (question_number - 1) ((fa.length : Int) - 1)).toNat < fa.length := by
    intro fa hlen
    have hmr : min (question_number - 1) ((fa.length : Int) - 1) ≤ (fa.length : Int) - 1 :=
      min_le_right _ _
    have hml : (0 : Int) ≤ min (question_number - 1) ((fa.length : Int) - 1) := by
      apply le_min <;> omega
    omega
  have hfa1 : 1 ≤ (if topic_analysis.focus_areas = [] then ["General Knowledge"]
      else topic_analysis.focus_areas).length := by
    split_ifs with hemp
    · simp
    · have := List.length_pos.2 hemp
      omega
  unfold AgenticOrchestrator.create_simple_question_spec pyIndex
  dsimp only
  rw [dif_pos (hgen _ hfa1)]
  exact ⟨_, rfl, difficultyChain_eq question_number config.experience_level h⟩

/-- C6 witness: question 3 for a senior candidate gets difficulty `hard`. -/
theorem C6_witness :
    ∃ spec : QuestionSpec,
      AgenticOrchestrator.create_simple_question_spec
          ⟨["A", "B"], [], [], ["F1", "F2", "F3"], "low", [], []⟩
          ⟨"React", "technical", "senior", none, 30⟩ [] 3 = .ok spec
      ∧ spec.difficulty =
          (if (3 : Int) ≤ 1 then "easy"
           else if (3 : Int) = 2 then "medium"
           else if ("senior" : String) = "fresher" then "medium" else "hard") :=
  C6_difficulty_progression ⟨["A", "B"], [], [], ["F1", "F2", "F3"], "low", [], []⟩
    ⟨"React", "technical", "senior", none, 30⟩ [] 3 (by norm_num)

/-- C10: the session key depends only on topic, style and experience
level (underscore join, spaces to underscores, lowercased); it is not
injective — configs differing only in duration/company, in topic letter
case, or in space versus underscore collide — and colliding configs share
one topic-analysis cache key. -/
theorem C10_session_key_not_injective :
    (∀ c1 c2 : InterviewConfig, c1.topic = c2.topic → c1.style = c2.style →
        c1.experience_level = c2.experience_level →
        AgenticOrchestrator.get_session_id c1 = AgenticOrchestrator.get_session_id c2)
    ∧ (∀ c1 c2 : InterviewConfig,
        AgenticOrchestrator.get_session_id c1 = AgenticOrchestrator.get_session_id c2 →
        topicCacheKey (AgenticOrchestrator.get_session_id c1)
          = topicCacheKey (AgenticOrchestrator.get_session_id c2))
    ∧ ((⟨"React", "technical", "junior", none, 30⟩ : InterviewConfig)
          ≠ ⟨"React", "technical", "junior", some "Acme", 60⟩
        ∧ AgenticOrchestrator.get_session_id ⟨"React", "technical", "junior", none, 30⟩
          = AgenticOrchestrator.get_session_id ⟨"React", "technical", "junior", some "Acme", 60⟩)
    ∧ ((⟨"React", "technical", "junior", none, 30⟩ : InterviewConfig)
          ≠ ⟨"react", "technical", "junior", none, 30⟩
        ∧ AgenticOrchestrator.get_session_id ⟨"React", "technical", "junior", none, 30⟩
          = AgenticOrchestrator.get_session_id ⟨"react", "technical", "junior", none, 30⟩)
    ∧ ((⟨"my topic", "technical", "junior", none, 30⟩ : InterviewConfig)
          ≠ ⟨"my_topic", "technical", "junior", none, 30⟩
        ∧ AgenticOrchestrator.get_session_id ⟨"my topic", "technical", "junior", none, 30⟩
          = AgenticOrchestrator.get_session_id ⟨"my_topic", "technical", "junior", none, 30⟩) := by
  refine ⟨?_, ?_, ⟨by decide, by decide⟩, ⟨by decide, by decide⟩, ⟨by decide, by decide⟩⟩
  · intro c1 c2 h1 h2 h3
    unfold AgenticOrchestrator.get_session_id
    rw [h1, h2, h3]
  · intro c1 c2 h
    unfold topicCacheKey
    rw [h]

/-- C10 witness: the projection property instantiated at two configs
agreeing on (topic, style, experience_level) but not on company or
duration. -/
theorem C10_witness :
    AgenticOrchestrator.get_session_id ⟨"React", "technical", "junior", none, 30⟩
      = AgenticOrchestrator.get_session_id ⟨"React", "technical", "junior", some "Acme", 120⟩ :=
  C10_session_key_not_injective.1 ⟨"React", "technical", "junior", none, 30⟩
    ⟨"React", "technical", "junior", some "Acme", 120⟩ rfl rfl rfl

/-- Inside the agent-level overall fallback, `performance_level` is the
85/70/60 threshold function of the computed `overall_score` (non-empty
input branch). -/
theorem overall_fallback_level_matches_table (input_data : OverallInput) (ctx : Ctx)
    (h : input_data.response_analyses.getD [] ≠ []) :
    (OverallAnalysisAgent.generate_fallback_result input_data ctx).performance_level
      = specPerformanceLevel
          (OverallAnalysisAgent.generate_fallback_result input_data ctx).overall_score := by
  unfold OverallAnalysisAgent.generate_fallback_result specPerformanceLevel
  dsimp only
  rw [if_neg h]

/-- The orchestrator-level overall fallback computes its level with the
80/60 thresholds on the (unrounded) mean. -/
theorem orch_fallback_level_eq (response_analyses : List AnalysisEntry)
    (config : InterviewConfig) :
    (PerformanceAnalysisOrchestrator.generate_fallback_overall_analysis_raw
        response_analyses config).performance_level
      = (if orchMeanScore response_analyses ≥ 80 then "good"
         else if orchMeanScore response_analyses ≥ 60 then "fair"
         else "needs_improvement") := by
  unfold PerformanceAnalysisOrchestrator.generate_fallback_overall_analysis_raw
  dsimp only

/-- C2 (amended): the agent-level overall fallback derives
`performance_level` from `overall_score` exactly by the 85/70/60 table
(for every non-empty input, hence every score it can produce, with the
claimed boundary behaviour); the orchestrator-level fallback does NOT
realise that table — it uses `good` from mean 80 and `fair` from mean 60
and can never produce `excellent`. -/
theorem C2_performance_level_thresholds :
    (∀ (input_data : OverallInput) (ctx : Ctx),
        input_data.response_analyses.getD [] ≠ [] →
        (OverallAnalysisAgent.generate_fallback_result input_data ctx).performance_level
          = specPerformanceLevel
              (OverallAnalysisAgent.generate_fallback_result input_data ctx).overall_score)
    ∧ (∀ (response_analyses : List AnalysisEntry) (config : InterviewConfig),
        (PerformanceAnalysisOrchestrator.generate_fallback_overall_analysis_raw
            response_analyses config).performance_level
          = (if orchMeanScore response_analyses ≥ 80 then "good"
             else if orchMeanScore response_analyses ≥ 60 then "fair"
             else "needs_improvement"))
    ∧ (∀ (response_analyses : List AnalysisEntry) (config : InterviewConfig),
        (PerformanceAnalysisOrchestrator.generate_fallback_overall_analysis_raw
            response_analyses config).performance_level ≠ "excellent")
    ∧ (specPerformanceLevel 59 = "needs_improvement" ∧ specPerformanceLevel 60 = "fair"
        ∧ specPerformanceLevel 69 = "fair" ∧ specPerformanceLevel 70 = "good"
        ∧ specPerformanceLevel 84 = "good" ∧ specPerformanceLevel 85 = "excellent") := by
  refine ⟨overall_fallback_level_matches_table, orch_fallback_level_eq, ?_, by decide⟩
  intro response_analyses config
  rw [orch_fallback_level_eq]
  split_ifs <;> simp

/-- C2 witness: the agent-level table property at a concrete non-empty
input. -/
theorem C2_witness :
    (OverallAnalysisAgent.generate_fallback_result
        ⟨some [⟨some "q1", some "Q", some "R", some 0, none, none⟩], none, none⟩ []).performance_level
      = specPerformanceLevel
          (OverallAnalysisAgent.generate_fallback_result
            ⟨some [⟨some "q1", some "Q", some "R", some 0, none, none⟩], none, none⟩ []).overall_score :=
  C2_performance_level_thresholds.1
    ⟨some [⟨some "q1", some "Q", some "R", some 0, none, none⟩], none, none⟩ [] (by simp)

theorem pyRound_85 : pyRound (85 : ℚ) = 85 := by
  have h : ((85 : ℤ) : ℚ) = (85 : ℚ) := by norm_num
  rw [← h, pyRound_intCast]

/-- C2 counterexample: one response analysis with score 85 — the
orchestrator-level fallback scores it 85 but labels it `good`, while the
claimed table demands `excellent` at 85. -/
theorem C2_counterexample :
    (PerformanceAnalysisOrchestrator.generate_fallback_overall_analysis_raw
        [⟨some "q1", some "Q", some "R", some 0,
          some ⟨none, some 85, none, none, none, none, none⟩, none⟩]
        ⟨"React", "technical", "junior", none, 30⟩).overall_score = 85
    ∧ (PerformanceAnalysisOrchestrator.generate_fallback_overall_analysis_raw
        [⟨some "q1", some "Q", some "R", some 0,
          some ⟨none, some 85, none, none, none, none, none⟩, none⟩]
        ⟨"React", "technical", "junior", none, 30⟩).performance_level = "good"
    ∧ specPerformanceLevel 85 = "excellent" := by
  have hm : orchMeanScore
      [⟨some "q1", some "Q", some "R", some 0,
        some ⟨none, some 85, none, none, none, none, none⟩, none⟩] = 85 := by
    unfold orchMeanScore
    rw [if_neg (by simp)]
    simp only [List.map_cons, List.map_nil, List.sum_cons, List.sum_nil,
      List.length_cons, List.length_nil]
    norm_num [AnalysisEntry.scoreD, AnalysisEntry.analysisData]
  refine ⟨?_, ?_, by decide⟩
  · have hproj : (PerformanceAnalysisOrchestrator.generate_fallback_overall_analysis_raw
        [⟨some "q1", some "Q", some "R", some 0,
          some ⟨none, some 85, none, none, none, none, none⟩, none⟩]
        ⟨"React", "technical", "junior", none, 30⟩).overall_score
        = pyRound (orchMeanScore
            [⟨some "q1", some "Q", some "R", some 0,
              some ⟨none, some 85, none, none, none, none, none⟩, none⟩]) := rfl
    rw [hproj, hm, pyRound_85]
  · rw [orch_fallback_level_eq, hm]
    norm_num

theorem c8_mean :
    (List.map (fun e => e.scoreD) (c8Input.response_analyses.getD [])).sum
      / ((c8Input.response_analyses.getD []).length : ℚ) = 220 / 3 := by
  show (List.map (fun e => e.scoreD) [c8Entry 60, c8Entry 70, c8Entry 90]).sum
      / (([c8Entry 60, c8Entry 70, c8Entry 90].length : ℕ) : ℚ) = 220 / 3
  simp only [List.map_cons, List.map_nil, List.sum_cons, List.sum_nil,
    List.length_cons, List.length_nil]
  norm_num [AnalysisEntry.scoreD, AnalysisEntry.analysisData, c8Entry]

theorem pyRound_220_div_3 : pyRound (220 / 3 : ℚ) = 73 := by
  have hf : ⌊(220 / 3 : ℚ)⌋ = 73 := by
    rw [Int.floor_eq_iff]
    constructor <;> norm_num
  unfold pyRound
  rw [hf]
  norm_num

/-- C8 (amended): the agent-level Overall-Analysis fallback applied to
three per-response analyses with scores 60, 70 and 90 yields
`overall_score = round(mean) = 73` and `performance_level = "good"`
(73 ≥ 70 in the agent's 85/70/60 table; the claimed `"fair"` is what the
orchestrator-level fallback's 80/60 table would give). -/
theorem C8_fallback_on_scores_60_70_90 :
    (OverallAnalysisAgent.generate_fallback_result c8Input []).overall_score = 73
    ∧ (OverallAnalysisAgent.generate_fallback_result c8Input []).performance_level = "good" := by
  have hproj : (OverallAnalysisAgent.generate_fallback_result c8Input []).overall_score
      = pyRound ((List.map (fun e => e.scoreD) (c8Input.response_analyses.getD [])).sum
          / ((c8Input.response_analyses.getD []).length : ℚ)) := by
    unfold OverallAnalysisAgent.generate_fallback_result
    dsimp only
    rw [if_neg (by simp [c8Input])]
  have hscore : (OverallAnalysisAgent.generate_fallback_result c8Input []).overall_score = 73 := by
    rw [hproj, c8_mean, pyRound_220_div_3]
  refine ⟨hscore, ?_⟩
  rw [overall_fallback_level_matches_table c8Input [] (by simp [c8Input]), hscore]
  decide

/-- C8 counterexample: on that input the fallback's performance level is
not `"fair"` as the claim states. -/
theorem C8_counterexample :
    (OverallAnalysisAgent.generate_fallback_result c8Input []).overall_score = 73
    ∧ (OverallAnalysisAgent.generate_fallback_result c8Input []).performance_level ≠ "fair" := by
  have hproj : (OverallAnalysisAgent.generate_fallback_result c8Input []).overall_score
      = pyRound ((List.map (fun e => e.scoreD) (c8Input.response_analyses.getD [])).sum
          / ((c8Input.response_analyses.getD []).length : ℚ)) := by
    unfold OverallAnalysisAgent.generate_fallback_result
    dsimp only
    rw [if_neg (by simp [c8Input])]
  have hscore : (OverallAnalysisAgent.generate_fallback_result c8Input []).overall_score = 73 := by
    rw [hproj, c8_mean, pyRound_220_div_3]
  refine ⟨hscore, ?_⟩
  rw [overall_fallback_level_matches_table c8Input [] (by simp [c8Input]), hscore]
  decide

/-- C1 (amended): for every agent, every input of the shape its callers
build, every context and every model-boundary behaviour, `execute`
returns a value and on any model failure that value is exactly
`generate_fallback_result(input, context)` — for the Topic-Analysis,
Question-Generation and Response-Analysis agents unconditionally, and
for the Overall-Analysis agent provided every score in the input
analyses lies in [0, 100] (otherwise its fallback's own pydantic
construction raises and the exception escapes `execute`). -/
theorem C1_execute_total_and_fallback :
    (∀ (input_data : TopicInput) (ctx : Ctx) (m : ModelOutcome TopicAnalysis),
      ∃ v, TopicAnalysisAgent.execute m input_data ctx = .ok v
        ∧ (m = .fail → v = TopicAnalysisAgent.generate_fallback_result input_data ctx))
    ∧ (∀ (input_data : QGInput) (ctx : Ctx) (m : ModelOutcome QuestionResult) (draw : Nat),
      ∃ v, QuestionGenerationAgent.execute m input_data ctx draw = .ok v
        ∧ (m = .fail → v = QuestionGenerationAgent.generate_fallback_result input_data ctx draw))
    ∧ (∀ (input_data : RespInput) (ctx : Ctx) (m : ModelOutcome ResponseAnalysisResult),
      ∃ v, ResponseAnalysisAgent.execute m input_data ctx = .ok v
        ∧ (m = .fail → v = ResponseAnalysisAgent.generate_fallback_result input_data ctx))
    ∧ (∀ (input_data : OverallInput) (ctx : Ctx) (m : ModelOutcome PerformanceAnalytics),
      overallInputOk input_data = true →
      ∃ v, OverallAnalysisAgent.execute m input_data ctx = .ok v
        ∧ (m = .fail → v = OverallAnalysisAgent.generate_fallback_result input_data ctx)) := by
  refine ⟨?_, ?_, ?_, ?_⟩
  · intro input_data ctx m
    cases m with
    | ok v => exact ⟨v, rfl, fun h => nomatch h⟩
    | fail =>
        exact ⟨TopicAnalysisAgent.generate_fallback_result input_data ctx,
          topic_fallbackE_ok input_data ctx, fun _ => rfl⟩
  · intro input_data ctx m draw
    cases m with
    | ok v => exact ⟨v, rfl, fun h => nomatch h⟩
    | fail =>
        exact ⟨QuestionGenerationAgent.generate_fallback_result input_data ctx draw,
          qg_fallbackE_ok input_data ctx draw, fun _ => rfl⟩
  · intro input_data ctx m
    cases m with
    | ok v => exact ⟨v, rfl, fun h => nomatch h⟩
    | fail =>
        exact ⟨ResponseAnalysisAgent.generate_fallback_result input_data ctx,
          resp_fallbackE_ok input_data ctx, fun _ => rfl⟩
  · intro input_data ctx m h
    cases m with
    | ok v => exact ⟨v, rfl, fun h2 => nomatch h2⟩
    | fail =>
        exact ⟨OverallAnalysisAgent.generate_fallback_result input_data ctx,
          overall_fallbackE_ok input_data ctx h, fun _ => rfl⟩

/-- C1 witness: the Overall-Analysis conjunct at a concrete in-range
input (no analyses) and a failing model call. -/
theorem C1_witness :
    ∃ v, OverallAnalysisAgent.execute .fail ⟨some [], none, none⟩ [] = .ok v
      ∧ v = OverallAnalysisAgent.generate_fallback_result ⟨some [], none, none⟩ [] := by
  obtain ⟨v, h1, h2⟩ :=
    C1_execute_total_and_fallback.2.2.2 ⟨some [], none, none⟩ [] .fail (by decide)
  exact ⟨v, h1, h2 rfl⟩

/-- C1 counterexample: an input analysis carrying the out-of-range score
200 (the Response-Analysis result schema does not bound its `score`
field, so a model can produce it) makes the Overall-Analysis fallback's
`PerformanceAnalytics` construction fail validation, and the exception
escapes `execute` — `execute` does not return a value of type `T` for
every input dictionary. -/
theorem C1_counterexample :
    OverallAnalysisAgent.execute .fail
        ⟨some [⟨none, none, none, none,
          some ⟨none, some 200, none, none, none, none, none⟩, none⟩], none, none⟩ []
      = .error "ValidationError" := by
  have hm : (List.map (fun e => e.scoreD)
      ((⟨some [⟨none, none, none, none,
          some ⟨none, some 200, none, none, none, none, none⟩, none⟩], none, none⟩ :
        OverallInput).response_analyses.getD [])).sum
      / (((⟨some [⟨none, none, none, none,
          some ⟨none, some 200, none, none, none, none, none⟩, none⟩], none, none⟩ :
        OverallInput).response_analyses.getD []).length : ℚ) = 200 := by
    simp only [Option.getD_some, List.map_cons, List.map_nil, List.sum_cons, List.sum_nil,
      List.length_cons, List.length_nil]
    norm_num [AnalysisEntry.scoreD, AnalysisEntry.analysisData]
  have h200 : pyRound (200 : ℚ) = 200 := by
    have h : ((200 : ℤ) : ℚ) = (200 : ℚ) := by norm_num
    rw [← h, pyRound_intCast]
  have hscore : (OverallAnalysisAgent.generate_fallback_result
      ⟨some [⟨none, none, none, none,
        some ⟨none, some 200, none, none, none, none, none⟩, none⟩], none, none⟩ []).overall_score
      = 200 := by
    have hproj : (OverallAnalysisAgent.generate_fallback_result
        ⟨some [⟨none, none, none, none,
          some ⟨none, some 200, none, none, none, none, none⟩, none⟩], none, none⟩ []).overall_score
        = pyRound ((List.map (fun e => e.scoreD)
            ((⟨some [⟨none, none, none, none,
                some ⟨none, some 200, none, none, none, none, none⟩, none⟩], none, none⟩ :
              OverallInput).response_analyses.getD [])).sum
            / (((⟨some [⟨none, none, none, none,
                some ⟨none, some 200, none, none, none, none, none⟩, none⟩], none, none⟩ :
              OverallInput).response_analyses.getD []).length : ℚ)) := by
      unfold OverallAnalysisAgent.generate_fallback_result
      dsimp only
      rw [if_neg (by simp)]
    rw [hproj, hm, h200]
  have hvalid : (OverallAnalysisAgent.generate_fallback_result
      ⟨some [⟨none, none, none, none,
        some ⟨none, some 200, none, none, none, none, none⟩, none⟩], none, none⟩ []).valid
      = false := by
    unfold PerformanceAnalytics.valid
    rw [hscore]
    simp
  show OverallAnalysisAgent.generate_fallback_resultE
      ⟨some [⟨none, none, none, none,
        some ⟨none, some 200, none, none, none, none, none⟩, none⟩], none, none⟩ []
      = .error "ValidationError"
  unfold OverallAnalysisAgent.generate_fallback_resultE validate
  rw [hvalid]
  simp

/-- C3 (amended): `generate_comprehensive_analytics([])` never raises;
whenever the Overall-Analysis model call fails it returns exactly the
fixed default analytics (`overall_score = 70`,
`performance_level = "fair"`); when the model call succeeds it returns
the model's analytics instead (which need not be the default). -/
theorem C3_empty_responses_default :
    (∀ (config : InterviewConfig) (respOutcomes : Nat → ModelOutcome ResponseAnalysisResult),
      ∃ p : PerformanceAnalytics,
        PerformanceAnalysisOrchestrator.generate_comprehensive_analytics [] config
            respOutcomes .fail = .ok p
        ∧ p.overall_score = 70 ∧ p.performance_level = "fair"
        ∧ p = OverallAnalysisAgent.generate_fallback_result
            ⟨some [], some config.dump,
              some (PerformanceAnalysisOrchestrator.sessionMetadata [] config)⟩ [])
    ∧ (∀ (config : InterviewConfig) (respOutcomes : Nat → ModelOutcome ResponseAnalysisResult)
        (v : PerformanceAnalytics),
      PerformanceAnalysisOrchestrator.generate_comprehensive_analytics [] config
          respOutcomes (.ok v) = .ok v)
    ∧ (∀ (config : InterviewConfig) (respOutcomes : Nat → ModelOutcome ResponseAnalysisResult)
        (m : ModelOutcome PerformanceAnalytics),
      ∃ p, PerformanceAnalysisOrchestrator.generate_comprehensive_analytics [] config
          respOutcomes m = .ok p) := by
  refine ⟨?_, ?_, ?_⟩
  · intro config respOutcomes
    exact ⟨_, rfl, rfl, rfl, rfl⟩
  · intro config respOutcomes v
    rfl
  · intro config respOutcomes m
    cases m with
    | ok v => exact ⟨v, rfl⟩
    | fail => exact ⟨_, rfl⟩

/-- C3 counterexample: when the Overall-Analysis model call SUCCEEDS on
the empty response list, the returned analytics is the model's value,
not the fixed default — so the result is not the default "regardless of
the model boundary's behavior". -/
theorem C3_counterexample :
    PerformanceAnalysisOrchestrator.generate_comprehensive_analytics []
        ⟨"React", "technical", "junior", none, 30⟩ (fun _ => .fail)
        (.ok { overall_score := 50, performance_level := "needs_improvement",
               strengths := ["x"], improvements := ["y"],
               response_analysis := ⟨50, 50, 50, 50, 50, 50⟩, trends := [],
               recommendations := [], executive_summary := "s", next_steps := [],
               question_reviews := [], metadata := [] })
      = .ok { overall_score := 50, performance_level := "needs_improvement",
              strengths := ["x"], improvements := ["y"],
              response_analysis := ⟨50, 50, 50, 50, 50, 50⟩, trends := [],
              recommendations := [], executive_summary := "s", next_steps := [],
              question_reviews := [], metadata := [] }
    ∧ ({ overall_score := 50, performance_level := "needs_improvement",
         strengths := ["x"], improvements := ["y"],
         response_analysis := ⟨50, 50, 50, 50, 50, 50⟩, trends := [],
         recommendations := [], executive_summary := "s", next_steps := [],
         question_reviews := [], metadata := [] } : PerformanceAnalytics).overall_score ≠ 70 :=
  ⟨rfl, by decide⟩

/-! ### C4: the topic-analysis cache -/

theorem dictGet_dictSet_self {α : Type} (d : List (String × α)) (k : String) (v : α) :
    dictGet (dictSet d k v) k = some v := by
  induction d with
  | nil => simp [dictSet, dictGet]
  | cons kv rest ih =>
      unfold dictSet
      by_cases h : kv.1 = k
      · rw [if_pos h]
        simp [dictGet]
      · rw [if_neg h]
        unfold dictGet
        rw [if_neg (fun hh => h hh.symm)]
        exact ih

theorem dictGet_dictSet_other {α : Type} (d : List (String × α)) {k k' : String} (v : α)
    (h : k' ≠ k) : dictGet (dictSet d k v) k' = dictGet d k' := by
  induction d with
  | nil => simp [dictSet, dictGet, h]
  | cons kv rest ih =>
      unfold dictSet
      by_cases hk : kv.1 = k
      · rw [if_pos hk]
        unfold dictGet
        rw [if_neg h, if_neg (hk ▸ h)]
      · rw [if_neg hk]
        unfold dictGet
        by_cases hk' : k' = kv.1
        · rw [if_pos hk', if_pos hk']
        · rw [if_neg hk', if_neg hk']
          exact ih

theorem topicCacheKey_ne (sid : String) : topicCacheKey sid ≠ sid := by
  intro h
  have hlen := congrArg String.length h
  rw [topicCacheKey, String.length_append] at hlen
  have h15 : ("_topic_analysis" : String).length = 15 := rfl
  omega

theorem update_session_memory_preserves (st : OrchState) (sid : String)
    (data : List (String × MetaVal)) {k : String} (h : k ≠ sid) :
    dictGet (AgenticOrchestrator.update_session_memory st sid data) k = dictGet st k := by
  unfold AgenticOrchestrator.update_session_memory
  cases hget : dictGet st sid with
  | none => exact dictGet_dictSet_other st _ h
  | some mv => cases mv <;> exact dictGet_dictSet_other st _ h

theorem get_or_create_hit (st : OrchState) (config : InterviewConfig) (sid : String)
    (tOut : ModelOutcome TopicAnalysis) (ta : TopicAnalysis) (hta : ta.valid = true)
    (hget : dictGet st (topicCacheKey sid) = some (.topicDump ta [])) :
    AgenticOrchestrator.get_or_create_topic_analysis st config sid tOut = (.ok ta, st, false) := by
  unfold AgenticOrchestrator.get_or_create_topic_analysis
  dsimp only
  rw [hget]
  simp [validate, hta]

theorem get_or_create_miss (st : OrchState) (config : InterviewConfig) (sid : String)
    (tOut : ModelOutcome TopicAnalysis) (hget : dictGet st (topicCacheKey sid) = none)
    (hvalid : topicOutcomeValid tOut = true) :
    ∃ ta : TopicAnalysis, ta.valid = true
      ∧ AgenticOrchestrator.get_or_create_topic_analysis st config sid tOut =
          (.ok ta, dictSet st (topicCacheKey sid) (.topicDump ta []), true) := by
  unfold AgenticOrchestrator.get_or_create_topic_analysis
  dsimp only
  rw [hget]
  cases tOut with
  | ok v =>
      refine ⟨v, ?_, rfl⟩
      simpa [topicOutcomeValid] using hvalid
  | fail =>
      refine ⟨TopicAnalysisAgent.generate_fallback_result
        (TopicAnalysisAgent.analyze_topic_input config) [], topic_fallback_valid _ _, ?_⟩
      show (match TopicAnalysisAgent.execute .fail (TopicAnalysisAgent.analyze_topic_input config) [] with
        | .ok ta => ((.ok ta : Except String TopicAnalysis),
            dictSet st (topicCacheKey sid) (.topicDump ta []), true)
        | .error e => ((.error e : Except String TopicAnalysis), st, true)) = _
      rw [show TopicAnalysisAgent.execute .fail (TopicAnalysisAgent.analyze_topic_input config) []
          = .ok (TopicAnalysisAgent.generate_fallback_result
              (TopicAnalysisAgent.analyze_topic_input config) []) from
        topic_fallbackE_ok _ _]

theorem generate_question_hit (st : OrchState) (config : InterviewConfig)
    (prev : List String) (qn : Int) (tOut : ModelOutcome TopicAnalysis)
    (qOut : ModelOutcome QuestionResult) (draw : Nat) (ta : TopicAnalysis)
    (hta : ta.valid = true)
    (hget : dictGet st (topicCacheKey (AgenticOrchestrator.get_session_id config))
      = some (.topicDump ta [])) :
    (AgenticOrchestrator.generate_question st config prev qn tOut qOut draw).invoked = false
    ∧ (AgenticOrchestrator.generate_question st config prev qn tOut qOut draw).used = some ta
    ∧ dictGet (AgenticOrchestrator.generate_question st config prev qn tOut qOut draw).state
        (topicCacheKey (AgenticOrchestrator.get_session_id config))
      = some (.topicDump ta []) := by
  unfold AgenticOrchestrator.generate_question
  dsimp only
  rw [get_or_create_hit st config (AgenticOrchestrator.get_session_id config) tOut ta hta hget]
  dsimp only
  cases hs : AgenticOrchestrator.generate_question_streamlined ta config prev qn qOut draw with
  | ok q =>
      refine ⟨rfl, rfl, ?_⟩
      dsimp only
      rw [update_session_memory_preserves st _ _ (topicCacheKey_ne _)]
      exact hget
  | error e => exact ⟨rfl, rfl, hget⟩

theorem generate_question_miss (st : OrchState) (config : InterviewConfig)
    (prev : List String) (qn : Int) (tOut : ModelOutcome TopicAnalysis)
    (qOut : ModelOutcome QuestionResult) (draw : Nat)
    (hget : dictGet st (topicCacheKey (AgenticOrchestrator.get_session_id config)) = none)
    (hvalid : topicOutcomeValid tOut = true) :
    ∃ ta : TopicAnalysis, ta.valid = true
      ∧ (AgenticOrchestrator.generate_question st config prev qn tOut qOut draw).invoked = true
      ∧ (AgenticOrchestrator.generate_question st config prev qn tOut qOut draw).used = some ta
      ∧ dictGet (AgenticOrchestrator.generate_question st config prev qn tOut qOut draw).state
          (topicCacheKey (AgenticOrchestrator.get_session_id config))
        = some (.topicDump ta []) := by
  obtain ⟨ta, hta, hgc⟩ :=
    get_or_create_miss st config (AgenticOrchestrator.get_session_id config) tOut hget hvalid
  refine ⟨ta, hta, ?_⟩
  unfold AgenticOrchestrator.generate_question
  dsimp only
  rw [hgc]
  dsimp only
  have hset : dictGet (dictSet st
      (topicCacheKey (AgenticOrchestrator.get_session_id config)) (.topicDump ta []))
      (topicCacheKey (AgenticOrchestrator.get_session_id config))
      = some (.topicDump ta []) := dictGet_dictSet_self _ _ _
  cases hs : AgenticOrchestrator.generate_question_streamlined ta config prev qn qOut draw with
  | ok q =>
      refine ⟨rfl, rfl, ?_⟩
      dsimp only
      rw [update_session_memory_preserves _ _ _ (topicCacheKey_ne _)]
      exact hset
  | error e => exact ⟨rfl, rfl, hset⟩

theorem runSeq_from_cached (k : String) (ta : TopicAnalysis) (hta : ta.valid = true) :
    ∀ (calls : List QCall) (st : OrchState),
      (∀ c ∈ calls, AgenticOrchestrator.get_session_id c.config = k) →
      dictGet st (topicCacheKey k) = some (.topicDump ta []) →
      (runSeq st calls).2.1 = 0
        ∧ (∀ u ∈ (runSeq st calls).2.2, u = some ta)
        ∧ dictGet (runSeq st calls).1 (topicCacheKey k) = some (.topicDump ta []) := by
  intro calls
  induction calls with
  | nil =>
      intro st _ hget
      exact ⟨rfl, by simp [runSeq], hget⟩
  | cons c cs ih =>
      intro st hkey hget
      have hk := hkey c (List.mem_cons_self c cs)
      have hget' : dictGet st (topicCacheKey (AgenticOrchestrator.get_session_id c.config))
          = some (.topicDump ta []) := by rw [hk]; exact hget
      have hhit := generate_question_hit st c.config c.previous_questions c.question_number
        c.topicOutcome c.qgOutcome c.draw ta hta hget'
      have hrest := ih (AgenticOrchestrator.generate_question st c.config c.previous_questions
          c.question_number c.topicOutcome c.qgOutcome c.draw).state
        (fun c' hc' => hkey c' (List.mem_cons_of_mem c hc'))
        (by rw [← hk]; exact hhit.2.2)
      unfold runSeq
      dsimp only
      refine ⟨?_, ?_, hrest.2.2⟩
      · rw [hhit.1, hrest.1]
        simp
      · intro u hu
        rcases List.mem_cons.1 hu with h | h
        · rw [h, hhit.2.1]
        · exact hrest.2.1 u h

/-- C4: across any non-empty sequence of `generate_question` calls whose
configs share one session key (whatever their question numbers, previous
questions, RNG draws and model outcomes), the Topic-Analysis agent is
invoked at most once — in fact exactly once, on the first call — and
every call uses one and the same cached `TopicAnalysis` value. -/
theorem C4_topic_analysis_cached_once (k : String) (calls : List QCall)
    (hne : calls ≠ [])
    (hkey : ∀ c ∈ calls, AgenticOrchestrator.get_session_id c.config = k)
    (hvalid : ∀ c ∈ calls, topicOutcomeValid c.topicOutcome = true) :
    (runSeq [] calls).2.1 ≤ 1
      ∧ ∃ ta : TopicAnalysis, ∀ u ∈ (runSeq [] calls).2.2, u = some ta := by
  cases calls with
  | nil => exact absurd rfl hne
  | cons c cs =>
      have hk := hkey c (List.mem_cons_self c cs)
      have hv := hvalid c (List.mem_cons_self c cs)
      have hget0 : dictGet ([] : OrchState)
          (topicCacheKey (AgenticOrchestrator.get_session_id c.config)) = none := rfl
      obtain ⟨ta, hta, hinv, hused, hstate⟩ := generate_question_miss [] c.config
        c.previous_questions c.question_number c.topicOutcome c.qgOutcome c.draw hget0 hv
      have hrest := runSeq_from_cached k ta hta cs
        (AgenticOrchestrator.generate_question [] c.config c.previous_questions
          c.question_number c.topicOutcome c.qgOutcome c.draw).state
        (fun c' hc' => hkey c' (List.mem_cons_of_mem c hc'))
        (by rw [← hk]; exact hstate)
      unfold runSeq
      dsimp only
      constructor
      · rw [hinv, hrest.1]
        simp
      · refine ⟨ta, ?_⟩
        intro u hu
        rcases List.mem_cons.1 hu with h | h
        · rw [h, hused]
        · exact hrest.2.1 u h

/-- C4 witness: two sequential calls with the same config — at most one
topic-analysis invocation and a shared cached analysis. -/
theorem C4_witness :
    (runSeq [] [⟨⟨"React", "technical", "junior", none, 30⟩, [], 1, .fail, .fail, 0⟩,
        ⟨⟨"React", "technical", "junior", none, 30⟩, ["q1"], 2, .fail, .fail, 1⟩]).2.1 ≤ 1
    ∧ ∃ ta : TopicAnalysis,
        ∀ u ∈ (runSeq [] [⟨⟨"React", "technical", "junior", none, 30⟩, [], 1, .fail, .fail, 0⟩,
          ⟨⟨"React", "technical", "junior", none, 30⟩, ["q1"], 2, .fail, .fail, 1⟩]).2.2,
          u = some ta :=
  C4_topic_analysis_cached_once "react_technical_junior"
    [⟨⟨"React", "technical", "junior", none, 30⟩, [], 1, .fail, .fail, 0⟩,
     ⟨⟨"React", "technical", "junior", none, 30⟩, ["q1"], 2, .fail, .fail, 1⟩]
    (by simp) (by decide) (by decide)
